import Mathlib

/-!
# Verification of the node-properties panel builder (Graphite editor)

Shallow embedding of `src/editor/src/messages/portfolio/document/node_graph/node_properties.rs`.

Modelling conventions:
* `f64` values are modelled as `ℚ` (exact rationals).  Widget numeric bounds, which the source
  sometimes sets to `f64::INFINITY` / `f64::NEG_INFINITY`, are modelled by `FNum`
  (a rational extended with the two infinities).
* Rust panics (out-of-bounds `Vec` indexing, `.expect`) are modelled by the error case of
  `Except String`; `pure`/`.ok` is normal termination.  Rust's `Result<T, E>` is modelled by
  `Except E T`.
* Rust closures bound as widget callbacks are modelled as Lean functions stored in the widget
  records.  A callback receiving `&NumberInput` only ever reads the input's `value` field, so it
  is modelled as a function of that field (and similarly for the other widget kinds).
* Builder methods such as `NumberInput::min(self, x)` share their name with the field they set;
  in Lean the setters are named `set_min` etc., and the callback fields are named
  `update_callback` / `commit_callback` so that the setters can keep the source names
  `on_update` / `on_commit`.
* Types owned by collaborating crates (`graph_craft`, `graphene_core`, the widget toolkit) are
  not part of the given source file; they are modelled from the spec where marked.
-/

/-- Modelled from the spec: node identifiers are opaque ids (graph store collaborator). -/
abbrev NodeId := Nat

/-- Modelled from the spec: an opaque color value (low-level toolkit collaborator).
The Rust `Color::default()` is modelled as `0`. -/
abbrev Color := Nat

/-- Modelled from the spec: an opaque parametric curve value. -/
abbrev Curve := Nat

/-- Modelled from the spec: a font reference is a family/style pair of strings. -/
abbrev Font := String × String

/-- Modelled from the spec: gradient stops are position/color pairs. -/
abbrev GradientStops := List (ℚ × Color)

/-- Modelled from the spec: reversing gradient stops reverses the order and mirrors positions. -/
def GradientStops.reversed (stops : GradientStops) : GradientStops :=
  (stops.reverse).map (fun pc => (1 - pc.1, pc.2))

inductive GradientType
  | linear
  | radial
deriving DecidableEq, Repr

/-- Modelled from the spec: a gradient carries stops, a type and two endpoint handles. -/
structure Gradient where
  stops : GradientStops
  gradient_type : GradientType
  start : ℚ × ℚ
  end' : ℚ × ℚ
deriving DecidableEq, Repr

/-- Modelled from the spec: a fill is either absent, a solid color, or a gradient. -/
inductive Fill
  | none
  | solid (color : Color)
  | gradient (gradient : Gradient)
deriving DecidableEq, Repr

/-- Modelled from the spec: `Fill::as_gradient` returns the gradient when the fill is one. -/
def Fill.as_gradient : Fill → Option Gradient
  | .gradient g => some g
  | _ => Option.none

/-- Modelled from the spec: the value held by a color button — a solid color, a set of gradient
stops, or nothing (`FillChoice` in the widget toolkit). -/
inductive FillChoice
  | solid (color : Color)
  | gradientStops (stops : GradientStops)
  | none
deriving DecidableEq, Repr

/-- Modelled from the spec: `FillChoice::as_solid`. -/
def FillChoice.as_solid : FillChoice → Option Color
  | .solid c => some c
  | _ => Option.none

/-- Modelled from the spec: `FillChoice::as_gradient` reads the stops out of a gradient choice. -/
def FillChoice.as_gradient : FillChoice → Option GradientStops
  | .gradientStops s => some s
  | _ => Option.none

/-- Modelled from the spec: a default gradient used when a gradient choice must become a fill
but no prior gradient geometry exists. -/
def Gradient.default : Gradient :=
  { stops := [], gradient_type := .linear, start := (0, 0), end' := (1, 0) }

/-- Modelled from the spec: `FillChoice::to_fill(existing_gradient)` converts the button value
back into a fill, reusing the existing gradient's geometry for a gradient choice. -/
def FillChoice.to_fill : FillChoice → Option Gradient → Fill
  | .solid c, _ => .solid c
  | .none, _ => .none
  | .gradientStops s, some g => .gradient { g with stops := s }
  | .gradientStops s, Option.none => .gradient { Gradient.default with stops := s }

/-- Modelled from the spec: `From<Option<Color>> for Fill`. -/
def fillOfOptionalColor : Option Color → Fill
  | some c => .solid c
  | Option.none => .none

/-- Modelled from the spec: `From<Gradient> for Fill`. -/
def fillOfGradient (g : Gradient) : Fill := .gradient g

/-- Modelled from the spec: `From<Fill> for FillChoice` (how the swatch displays a fill). -/
def FillChoice.ofFill : Fill → FillChoice
  | .solid c => .solid c
  | .gradient g => .gradientStops g.stops
  | .none => .none

/-- Modelled from the spec: a 2D affine transform restricted to scale+translation, which is the
only form `footprint_widget` constructs (`from_scale_angle_translation(scale, 0., offset)`). -/
structure DAffine2 where
  scale : ℚ × ℚ
  translation : ℚ × ℚ
deriving DecidableEq, Repr

/-- Modelled from the spec: the composite camera/footprint value (transform + resolution). -/
structure Footprint where
  transform : DAffine2
  resolution : ℕ × ℕ
deriving DecidableEq, Repr

/-- Modelled from the spec: `Footprint::scale` reads the transform's scale factors. -/
def Footprint.scale (f : Footprint) : ℚ × ℚ := f.transform.scale

/-- Modelled from the spec: `transform.transform_point2(DVec2::ZERO)` is the translation. -/
def DAffine2.transform_point2_zero (t : DAffine2) : ℚ × ℚ := t.translation

inductive BlendMode
  | normal
  | multiply | darken | colorBurn
  | screen | lighten | colorDodge
  | overlay | softLight | hardLight
  | difference | exclusion
  | hue | saturation | color | luminosity
deriving DecidableEq, Repr

/-- Modelled from the spec: the SVG-subset enumeration of blend modes, grouped in sections. -/
def BlendMode.list_svg_subset : List (List BlendMode) :=
  [[.normal],
   [.multiply, .darken, .colorBurn],
   [.screen, .lighten, .colorDodge],
   [.overlay, .softLight, .hardLight],
   [.difference, .exclusion],
   [.hue, .saturation, .color, .luminosity]]

/-- Modelled from the spec: position of a blend mode within the flattened SVG subset. -/
def BlendMode.index_in_list_svg_subset (m : BlendMode) : Option ℕ :=
  (BlendMode.list_svg_subset.flatten).indexOf? m

inductive RealTimeMode
  | utc | year | hour | minute | second | millisecond
deriving DecidableEq, Repr

inductive RedGreenBlue
  | red | green | blue
deriving DecidableEq, Repr

inductive RedGreenBlueAlpha
  | red | green | blue | alpha
deriving DecidableEq, Repr

inductive XY
  | x | y
deriving DecidableEq, Repr

inductive NoiseType
  | perlin | openSimplex2 | openSimplex2S | cellular | valueCubic | value | whiteNoise
deriving DecidableEq, Repr

/-- Modelled from the spec: `NoiseType::list()`. -/
def NoiseType.list : List NoiseType :=
  [.perlin, .openSimplex2, .openSimplex2S, .cellular, .valueCubic, .value, .whiteNoise]

inductive FractalType
  | none | fbm | ridged | pingPong | domainWarpProgressive | domainWarpIndependent
deriving DecidableEq, Repr

/-- Modelled from the spec: `FractalType::list()`. -/
def FractalType.list : List FractalType :=
  [.none, .fbm, .ridged, .pingPong, .domainWarpProgressive, .domainWarpIndependent]

inductive CellularDistanceFunction
  | euclidean | euclideanSq | manhattan | hybrid
deriving DecidableEq, Repr

/-- Modelled from the spec: `CellularDistanceFunction::list()`. -/
def CellularDistanceFunction.list : List CellularDistanceFunction :=
  [.euclidean, .euclideanSq, .manhattan, .hybrid]

inductive CellularReturnType
  | cellValue | nearest | nextNearest | average
deriving DecidableEq, Repr

/-- Modelled from the spec: `CellularReturnType::list()`. -/
def CellularReturnType.list : List CellularReturnType :=
  [.cellValue, .nearest, .nextNearest, .average]

inductive DomainWarpType
  | none | openSimplex2 | openSimplex2Reduced | basicGrid
deriving DecidableEq, Repr

/-- Modelled from the spec: `DomainWarpType::list()`. -/
def DomainWarpType.list : List DomainWarpType :=
  [.none, .openSimplex2, .openSimplex2Reduced, .basicGrid]

inductive RelativeAbsolute
  | relative | absolute
deriving DecidableEq, Repr

inductive GridType
  | rectangular | isometric
deriving DecidableEq, Repr

inductive LineCap
  | butt | round | square
deriving DecidableEq, Repr

inductive LineJoin
  | miter | bevel | round
deriving DecidableEq, Repr

inductive ArcType
  | open | closed | pieSlice
deriving DecidableEq, Repr

inductive FillType
  | solid | gradient
deriving DecidableEq, Repr

inductive BooleanOperation
  | union | subtractFront | subtractBack | intersect | difference
deriving DecidableEq, Repr

/-- Modelled from the spec: `BooleanOperation::list()`. -/
def BooleanOperation.list : List BooleanOperation :=
  [.union, .subtractFront, .subtractBack, .intersect, .difference]

/-- Modelled from the spec: `BooleanOperation::icons()` (one icon name per operation). -/
def BooleanOperation.icons : List String :=
  ["BooleanUnion", "BooleanSubtractFront", "BooleanSubtractBack", "BooleanIntersect",
   "BooleanDifference"]

inductive CentroidType
  | area | length
deriving DecidableEq, Repr

inductive LuminanceCalculation
  | srgb | perceptual | averageChannels | minimumChannels | maximumChannels
deriving DecidableEq, Repr

/-- Modelled from the spec: `LuminanceCalculation::list()`. -/
def LuminanceCalculation.list : List LuminanceCalculation :=
  [.srgb, .perceptual, .averageChannels, .minimumChannels, .maximumChannels]

inductive SelectiveColorChoice
  | reds | yellows | greens | cyans | blues | magentas | whites | neutrals | blacks
deriving DecidableEq, Repr

/-- The closed discriminated union of slot value shapes (`TaggedValue` in `graph_craft`),
restricted to the variants this source file reads or writes. -/
inductive TaggedValue
  | bool (b : Bool)
  | f64 (x : ℚ)
  | u32 (n : ℕ)
  | u64 (n : ℕ)
  | string (s : String)
  | optionalF64 (x : Option ℚ)
  | dvec2 (v : ℚ × ℚ)
  | ivec2 (v : ℤ × ℤ)
  | uvec2 (v : ℕ × ℕ)
  | vecF64 (l : List ℚ)
  | vecDVec2 (l : List (ℚ × ℚ))
  | f64Array4 (a : ℚ × ℚ × ℚ × ℚ)
  | color (c : Color)
  | optionalColor (c : Option Color)
  | gradientStops (g : GradientStops)
  | fill (f : Fill)
  | gradient (g : Gradient)
  | font (f : Font)
  | curve (c : Curve)
  | footprint (f : Footprint)
  | blendMode (m : BlendMode)
  | realTimeMode (m : RealTimeMode)
  | redGreenBlue (m : RedGreenBlue)
  | redGreenBlueAlpha (m : RedGreenBlueAlpha)
  | xy (m : XY)
  | noiseType (m : NoiseType)
  | fractalType (m : FractalType)
  | cellularDistanceFunction (m : CellularDistanceFunction)
  | cellularReturnType (m : CellularReturnType)
  | domainWarpType (m : DomainWarpType)
  | relativeAbsolute (m : RelativeAbsolute)
  | gridType (m : GridType)
  | lineCap (m : LineCap)
  | lineJoin (m : LineJoin)
  | arcType (m : ArcType)
  | fillType (m : FillType)
  | gradientType (m : GradientType)
  | booleanOperation (m : BooleanOperation)
  | centroidType (m : CentroidType)
  | luminanceCalculation (m : LuminanceCalculation)
  | selectiveColorChoice (m : SelectiveColorChoice)
deriving DecidableEq, Repr

/-- The discriminant (tag) of a tagged value. -/
inductive Tag
  | bool | f64 | u32 | u64 | string | optionalF64 | dvec2 | ivec2 | uvec2
  | vecF64 | vecDVec2 | f64Array4 | color | optionalColor | gradientStops
  | fill | gradient | font | curve | footprint
  | blendMode | realTimeMode | redGreenBlue | redGreenBlueAlpha | xy
  | noiseType | fractalType | cellularDistanceFunction | cellularReturnType
  | domainWarpType | relativeAbsolute | gridType | lineCap | lineJoin | arcType
  | fillType | gradientType | booleanOperation | centroidType
  | luminanceCalculation | selectiveColorChoice
deriving DecidableEq, Repr

/-- The tag of each tagged value. -/
def TaggedValue.tag : TaggedValue → Tag
  | .bool _ => .bool
  | .f64 _ => .f64
  | .u32 _ => .u32
  | .u64 _ => .u64
  | .string _ => .string
  | .optionalF64 _ => .optionalF64
  | .dvec2 _ => .dvec2
  | .ivec2 _ => .ivec2
  | .uvec2 _ => .uvec2
  | .vecF64 _ => .vecF64
  | .vecDVec2 _ => .vecDVec2
  | .f64Array4 _ => .f64Array4
  | .color _ => .color
  | .optionalColor _ => .optionalColor
  | .gradientStops _ => .gradientStops
  | .fill _ => .fill
  | .gradient _ => .gradient
  | .font _ => .font
  | .curve _ => .curve
  | .footprint _ => .footprint
  | .blendMode _ => .blendMode
  | .realTimeMode _ => .realTimeMode
  | .redGreenBlue _ => .redGreenBlue
  | .redGreenBlueAlpha _ => .redGreenBlueAlpha
  | .xy _ => .xy
  | .noiseType _ => .noiseType
  | .fractalType _ => .fractalType
  | .cellularDistanceFunction _ => .cellularDistanceFunction
  | .cellularReturnType _ => .cellularReturnType
  | .domainWarpType _ => .domainWarpType
  | .relativeAbsolute _ => .relativeAbsolute
  | .gridType _ => .gridType
  | .lineCap _ => .lineCap
  | .lineJoin _ => .lineJoin
  | .arcType _ => .arcType
  | .fillType _ => .fillType
  | .gradientType _ => .gradientType
  | .booleanOperation _ => .booleanOperation
  | .centroidType _ => .centroidType
  | .luminanceCalculation _ => .luminanceCalculation
  | .selectiveColorChoice _ => .selectiveColorChoice

/-- Modelled from the spec: the identity tokens (`std::any::TypeId`) the catalog compares
against, plus an `other` constructor for types outside the catalog. -/
inductive TypeId
  | tBool | tF64 | tU32 | tU64 | tString
  | tColor | tOptionColor | tDVec2 | tUVec2 | tIVec2
  | tVecF64 | tVecDVec2 | tFont | tCurve | tGradientStops
  | tVectorDataTable | tRasterFrame | tImageFrameTable | tTextureFrameTable
  | tGraphicGroupTable | tFootprint
  | tBlendMode | tRealTimeMode | tRedGreenBlue | tRedGreenBlueAlpha | tXY
  | tNoiseType | tFractalType | tCellularDistanceFunction | tCellularReturnType
  | tDomainWarpType | tRelativeAbsolute | tGridType | tLineCap | tLineJoin
  | tArcType | tFillType | tGradientType | tBooleanOperation | tCentroidType
  | tLuminanceCalculation
  | other (n : ℕ)
deriving DecidableEq, Repr

/-- Modelled from the spec: a concrete type descriptor (display name, optional semantic
alias, optional identity token). -/
structure ConcreteType where
  name : String
  alias' : Option String
  id : Option TypeId
deriving DecidableEq, Repr

/-- Modelled from the spec: the type descriptor at a slot (`graph_craft::Type`) — concrete,
generic, function-of, or future-of. -/
inductive Ty
  | concrete (c : ConcreteType)
  | generic (name : String)
  | fn (arg out : Ty)
  | future (out : Ty)
deriving DecidableEq, Repr

/-- Modelled from the spec: `Type::type_name()`, the name used for the lexicographic
candidate tie-break. -/
def Ty.type_name : Ty → String
  | .concrete c => c.name
  | .generic s => s
  | .fn _ out => out.type_name
  | .future out => out.type_name

-- Messages produced toward the dispatch fabric.

/-- Modelled from the spec: the graph-store mutation requests this core emits. -/
inductive NodeGraphMessage
  | setInputValue (node_id : NodeId) (input_index : ℕ) (value : TaggedValue)
  | exposeInput (node_id : NodeId) (index : ℕ) (set_to_exposed : Bool) (start_transaction : Bool)
deriving Repr

/-- Modelled from the spec: the message type carried by widget callbacks (`Message`). -/
inductive Message
  | noOp
  | nodeGraph (m : NodeGraphMessage)
  | documentAddTransaction
  | batched (messages : List Message)
deriving Repr

/-- A 64-bit float bound value: a rational or one of the two infinities
(`f64::INFINITY` / `f64::NEG_INFINITY` appear as widget bounds in the source). -/
inductive FNum
  | finite (q : ℚ)
  | posInf
  | negInf
deriving DecidableEq, Repr

/-- Model of Rust's `Option::unwrap()` on a callback's `f64` payload.  The toolkit only
invokes number-input callbacks with a present value, so the `none` case is unreachable
there; following `unwrap_or_default` semantics it is modelled as `0`. -/
def f64unwrap (o : Option ℚ) : ℚ := o.getD 0

inductive FrontendGraphDataType
  | general
  | number
  | vectorData
  | raster
  | group
deriving DecidableEq, Repr

inductive SeparatorType
  | related
  | unrelated
  | section
deriving DecidableEq, Repr

-- Widget records (the opaque control catalog, modelled from the spec).  Callback fields are
-- `update_callback` / `commit_callback`; builder methods keep the source names
-- `on_update` / `on_commit`, and value-setting builder methods are named `set_<field>`.

structure NumberInput where
  value : Option ℚ := Option.none
  label : String := ""
  unit : String := ""
  min : Option FNum := Option.none
  max : Option FNum := Option.none
  is_integer : Bool := false
  is_range_mode : Bool := false
  disabled : Bool := false
  increment_step : Option ℚ := Option.none
  update_callback : Option (Option ℚ → Message) := Option.none
  commit_callback : Option (Option ℚ → Message) := Option.none

def NumberInput.default : NumberInput := {}

def NumberInput.new (v : Option ℚ) : NumberInput := { value := v }

def NumberInput.set_value (n : NumberInput) (v : Option ℚ) : NumberInput := { n with value := v }

def NumberInput.set_label (n : NumberInput) (s : String) : NumberInput := { n with label := s }

def NumberInput.set_unit (n : NumberInput) (s : String) : NumberInput := { n with unit := s }

def NumberInput.set_min (n : NumberInput) (x : FNum) : NumberInput := { n with min := some x }

def NumberInput.set_max (n : NumberInput) (x : FNum) : NumberInput := { n with max := some x }

def NumberInput.int (n : NumberInput) : NumberInput := { n with is_integer := true }

def NumberInput.mode_range (n : NumberInput) : NumberInput := { n with is_range_mode := true }

/-- Modelled from the spec: `NumberInput::percentage()` gives the control percent
unit/step behavior and range display; the `[0, 100]` bounds themselves are applied
explicitly by the caller in `property_from_type`. -/
def NumberInput.percentage (n : NumberInput) : NumberInput :=
  { n with unit := "%", is_range_mode := true }

def NumberInput.set_disabled (n : NumberInput) (b : Bool) : NumberInput := { n with disabled := b }

def NumberInput.increment_step_set (n : NumberInput) (q : ℚ) : NumberInput :=
  { n with increment_step := some q }

def NumberInput.on_update (n : NumberInput) (f : Option ℚ → Message) : NumberInput :=
  { n with update_callback := some f }

def NumberInput.on_commit (n : NumberInput) (f : Option ℚ → Message) : NumberInput :=
  { n with commit_callback := some f }

structure TextInput where
  value : String := ""
  centered : Bool := false
  disabled : Bool := false
  update_callback : Option (String → Message) := Option.none
  commit_callback : Option (String → Message) := Option.none

def TextInput.default : TextInput := {}

def TextInput.new (s : String) : TextInput := { value := s }

def TextInput.set_value (t : TextInput) (s : String) : TextInput := { t with value := s }

def TextInput.set_centered (t : TextInput) (b : Bool) : TextInput := { t with centered := b }

def TextInput.on_update (t : TextInput) (f : String → Message) : TextInput :=
  { t with update_callback := some f }

def TextInput.on_commit (t : TextInput) (f : String → Message) : TextInput :=
  { t with commit_callback := some f }

structure TextAreaInput where
  value : String := ""
  update_callback : Option (String → Message) := Option.none
  commit_callback : Option (String → Message) := Option.none

def TextAreaInput.new (s : String) : TextAreaInput := { value := s }

def TextAreaInput.on_update (t : TextAreaInput) (f : String → Message) : TextAreaInput :=
  { t with update_callback := some f }

def TextAreaInput.on_commit (t : TextAreaInput) (f : String → Message) : TextAreaInput :=
  { t with commit_callback := some f }

structure CheckboxInput where
  checked : Bool := false
  icon : String := ""
  tooltip : String := ""
  disabled : Bool := false
  update_callback : Option (Bool → Message) := Option.none
  commit_callback : Option (Bool → Message) := Option.none

def CheckboxInput.default : CheckboxInput := {}

def CheckboxInput.new (b : Bool) : CheckboxInput := { checked := b }

def CheckboxInput.set_checked (c : CheckboxInput) (b : Bool) : CheckboxInput :=
  { c with checked := b }

def CheckboxInput.on_update (c : CheckboxInput) (f : Bool → Message) : CheckboxInput :=
  { c with update_callback := some f }

def CheckboxInput.on_commit (c : CheckboxInput) (f : Bool → Message) : CheckboxInput :=
  { c with commit_callback := some f }

structure ColorInput where
  value : FillChoice := .none
  allow_none : Bool := true
  update_callback : Option (FillChoice → Message) := Option.none
  commit_callback : Option (FillChoice → Message) := Option.none

def ColorInput.default : ColorInput := {}

def ColorInput.set_value (c : ColorInput) (v : FillChoice) : ColorInput := { c with value := v }

def ColorInput.set_allow_none (c : ColorInput) (b : Bool) : ColorInput :=
  { c with allow_none := b }

def ColorInput.on_update (c : ColorInput) (f : FillChoice → Message) : ColorInput :=
  { c with update_callback := some f }

def ColorInput.on_commit (c : ColorInput) (f : FillChoice → Message) : ColorInput :=
  { c with commit_callback := some f }

structure FontInput where
  font_family : String := ""
  font_style : String := ""
  is_style_picker : Bool := false
  update_callback : Option (Font → Message) := Option.none
  commit_callback : Option (Font → Message) := Option.none

def FontInput.new (family style : String) : FontInput :=
  { font_family := family, font_style := style }

def FontInput.set_is_style_picker (f : FontInput) (b : Bool) : FontInput :=
  { f with is_style_picker := b }

def FontInput.on_update (fi : FontInput) (f : Font → Message) : FontInput :=
  { fi with update_callback := some f }

def FontInput.on_commit (fi : FontInput) (f : Font → Message) : FontInput :=
  { fi with commit_callback := some f }

structure CurveInput where
  value : Curve := 0
  update_callback : Option (Curve → Message) := Option.none
  commit_callback : Option (Curve → Message) := Option.none

def CurveInput.new (c : Curve) : CurveInput := { value := c }

def CurveInput.on_update (ci : CurveInput) (f : Curve → Message) : CurveInput :=
  { ci with update_callback := some f }

def CurveInput.on_commit (ci : CurveInput) (f : Curve → Message) : CurveInput :=
  { ci with commit_callback := some f }

structure RadioEntryData where
  value : String := ""
  label : String := ""
  icon : String := ""
  tooltip : String := ""
  update_callback : Option (Unit → Message) := Option.none
  commit_callback : Option (Unit → Message) := Option.none

def RadioEntryData.new (v : String) : RadioEntryData := { value := v }

def RadioEntryData.set_label (r : RadioEntryData) (s : String) : RadioEntryData :=
  { r with label := s }

def RadioEntryData.set_icon (r : RadioEntryData) (s : String) : RadioEntryData :=
  { r with icon := s }

def RadioEntryData.set_tooltip (r : RadioEntryData) (s : String) : RadioEntryData :=
  { r with tooltip := s }

def RadioEntryData.on_update (r : RadioEntryData) (f : Unit → Message) : RadioEntryData :=
  { r with update_callback := some f }

def RadioEntryData.on_commit (r : RadioEntryData) (f : Unit → Message) : RadioEntryData :=
  { r with commit_callback := some f }

structure RadioInput where
  entries : List RadioEntryData := []
  selected_index : Option ℕ := Option.none

def RadioInput.new (es : List RadioEntryData) : RadioInput := { entries := es }

def RadioInput.set_selected_index (r : RadioInput) (i : Option ℕ) : RadioInput :=
  { r with selected_index := i }

structure MenuListEntry where
  value : String := ""
  label : String := ""
  update_callback : Option (Unit → Message) := Option.none
  commit_callback : Option (Unit → Message) := Option.none

def MenuListEntry.new (v : String) : MenuListEntry := { value := v }

def MenuListEntry.set_label (m : MenuListEntry) (s : String) : MenuListEntry :=
  { m with label := s }

def MenuListEntry.on_update (m : MenuListEntry) (f : Unit → Message) : MenuListEntry :=
  { m with update_callback := some f }

def MenuListEntry.on_commit (m : MenuListEntry) (f : Unit → Message) : MenuListEntry :=
  { m with commit_callback := some f }

structure DropdownInput where
  entries : List (List MenuListEntry) := []
  selected_index : Option ℕ := Option.none
  disabled : Bool := false

def DropdownInput.new (es : List (List MenuListEntry)) : DropdownInput := { entries := es }

def DropdownInput.set_selected_index (d : DropdownInput) (i : Option ℕ) : DropdownInput :=
  { d with selected_index := i }

def DropdownInput.set_disabled (d : DropdownInput) (b : Bool) : DropdownInput :=
  { d with disabled := b }

structure IconButton where
  icon : String := ""
  size : ℕ := 24
  tooltip : String := ""
  update_callback : Option (Unit → Message) := Option.none

def IconButton.new (icon : String) (size : ℕ) : IconButton := { icon := icon, size := size }

def IconButton.set_tooltip (b : IconButton) (s : String) : IconButton := { b with tooltip := s }

def IconButton.on_update (b : IconButton) (f : Unit → Message) : IconButton :=
  { b with update_callback := some f }

structure ParameterExposeButton where
  exposed : Bool := false
  data_type : FrontendGraphDataType := .general
  tooltip : String := ""
  update_callback : Option (Unit → Message) := Option.none

def ParameterExposeButton.new : ParameterExposeButton := {}

def ParameterExposeButton.set_exposed (p : ParameterExposeButton) (b : Bool) :
    ParameterExposeButton := { p with exposed := b }

def ParameterExposeButton.set_data_type (p : ParameterExposeButton)
    (d : FrontendGraphDataType) : ParameterExposeButton := { p with data_type := d }

def ParameterExposeButton.set_tooltip (p : ParameterExposeButton) (s : String) :
    ParameterExposeButton := { p with tooltip := s }

def ParameterExposeButton.on_update (p : ParameterExposeButton) (f : Unit → Message) :
    ParameterExposeButton := { p with update_callback := some f }

structure TextLabel where
  value : String := ""
  tooltip : String := ""
  bold : Bool := false

def TextLabel.new (s : String) : TextLabel := { value := s }

def TextLabel.set_tooltip (t : TextLabel) (s : String) : TextLabel := { t with tooltip := s }

def TextLabel.set_bold (t : TextLabel) (b : Bool) : TextLabel := { t with bold := b }

structure Separator where
  s_type : SeparatorType

def Separator.new (t : SeparatorType) : Separator := { s_type := t }

/-- One control descriptor inside a widget row. -/
inductive WidgetHolder
  | parameterExposeButton (p : ParameterExposeButton)
  | textLabel (t : TextLabel)
  | separator (s : Separator)
  | numberInput (n : NumberInput)
  | textInput (t : TextInput)
  | textAreaInput (t : TextAreaInput)
  | checkboxInput (c : CheckboxInput)
  | colorInput (c : ColorInput)
  | fontInput (f : FontInput)
  | curveInput (c : CurveInput)
  | radioInput (r : RadioInput)
  | dropdownInput (d : DropdownInput)
  | iconButton (b : IconButton)

def ParameterExposeButton.widget_holder (p : ParameterExposeButton) : WidgetHolder :=
  .parameterExposeButton p

def TextLabel.widget_holder (t : TextLabel) : WidgetHolder := .textLabel t

def Separator.widget_holder (s : Separator) : WidgetHolder := .separator s

def NumberInput.widget_holder (n : NumberInput) : WidgetHolder := .numberInput n

def TextInput.widget_holder (t : TextInput) : WidgetHolder := .textInput t

def TextAreaInput.widget_holder (t : TextAreaInput) : WidgetHolder := .textAreaInput t

def CheckboxInput.widget_holder (c : CheckboxInput) : WidgetHolder := .checkboxInput c

def ColorInput.widget_holder (c : ColorInput) : WidgetHolder := .colorInput c

def FontInput.widget_holder (f : FontInput) : WidgetHolder := .fontInput f

def CurveInput.widget_holder (c : CurveInput) : WidgetHolder := .curveInput c

def RadioInput.widget_holder (r : RadioInput) : WidgetHolder := .radioInput r

def DropdownInput.widget_holder (d : DropdownInput) : WidgetHolder := .dropdownInput d

def IconButton.widget_holder (b : IconButton) : WidgetHolder := .iconButton b

/-- A widget row or panel section (`LayoutGroup`); per the spec a row carries an associated
tooltip. -/
inductive LayoutGroup
  | row (widgets : List WidgetHolder) (tooltip : String)
  | section (name : String) (description : String) (visible : Bool) (pinned : Bool)
      (id : ℕ) (layout : List LayoutGroup)

/-- `LayoutGroup::Row { widgets }` (no tooltip attached yet). -/
def LayoutGroup.mkRow (widgets : List WidgetHolder) : LayoutGroup := .row widgets ""

/-- `.with_tooltip(..)` on a row sets its associated tooltip. -/
def LayoutGroup.with_tooltip (l : LayoutGroup) (tip : String) : LayoutGroup :=
  match l with
  | .row ws _ => .row ws tip
  | .section a b c d e f => .section a b c d e f

/-- Rust's `.into()` from `Vec<WidgetHolder>` to `LayoutGroup`. -/
def widgetsIntoLayoutGroup (ws : List WidgetHolder) : LayoutGroup := LayoutGroup.mkRow ws

-- Graph store model (external collaborator, modelled from the spec §6).

/-- Modelled from the spec: an input slot is either a literal tagged value (with an exposed
flag) or wired to another node. -/
inductive NodeInput
  | value (tagged_value : TaggedValue) (exposed : Bool)
  | node (source : NodeId)

/-- Modelled from the spec: `NodeInput::as_value` reads the literal value regardless of
exposure. -/
def NodeInput.as_value : NodeInput → Option TaggedValue
  | .value v _ => some v
  | _ => Option.none

/-- Modelled from the spec: `NodeInput::as_non_exposed_value` reads the literal value only
when the slot is not exposed. -/
def NodeInput.as_non_exposed_value : NodeInput → Option TaggedValue
  | .value v exposed => if exposed then Option.none else some v
  | _ => Option.none

/-- Modelled from the spec: whether the slot is exposed as a graph input. -/
def NodeInput.is_exposed : NodeInput → Bool
  | .value _ e => e
  | .node _ => true

/-- Modelled from the spec: a document node owns an ordered sequence of input slots. -/
structure DocumentNode where
  inputs : List NodeInput

/-- Modelled from the spec: a node's implementation — a named proto node (for which overload
signatures are registered) or anything else. -/
inductive DocumentNodeImplementation
  | protoNode (name : String)
  | network

/-- Modelled from the spec: one registered overload signature (`NodeIOTypes`), of which only
the input type list is read here. -/
structure NodeIOTypes where
  inputs : List Ty

/-- Modelled from the spec: per-field registry metadata (`NODE_METADATA`): numeric range/step
metadata and an optional default type. -/
structure FieldMetadata where
  number_min : Option ℚ := Option.none
  number_max : Option ℚ := Option.none
  number_mode_range : Option (ℚ × ℚ) := Option.none
  default_type : Option Ty := Option.none

/-- Modelled from the spec: metadata registered for a proto node. -/
structure NodeMetadata where
  fields : List FieldMetadata

/-- Modelled from the spec: a nested network exposing node lookup. -/
structure Network where
  nodes : NodeId → Option DocumentNode

/-- Modelled from the spec: the read-only context handed to the builders (the
`network_interface` queries, the widget-override registry, `NODE_METADATA` and
`NODE_REGISTRY` lookups). -/
structure NodePropertiesContext where
  input_name : NodeId → ℕ → Option String
  input_description : NodeId → ℕ → Option String
  nested_network : Option Network
  call_widget_override : NodeId → ℕ → Option (List LayoutGroup)
  implementation : NodeId → Option DocumentNodeImplementation
  node_metadata : String → Option NodeMetadata
  node_registry : String → Option (List NodeIOTypes)
  input_type : NodeId → ℕ → Ty

/-- The `(number_min, number_max, range)` triple threaded through `property_from_type`. -/
abbrev NumberOptions := Option ℚ × Option ℚ × Option (ℚ × ℚ)

/-- Computation that may hit a Rust panic (`.error msg` models the panic). -/
abbrev Panics (α : Type) := Except String α

/-- Rust `Vec` indexing `v[i]`, which panics when out of bounds. -/
def indexPanic {α : Type} (l : List α) (i : ℕ) : Panics α :=
  match l.get? i with
  | some a => pure a
  | Option.none => Except.error "index out of bounds"

-- Numeric casts used by the widget callbacks (Rust `as` casts on floats truncate toward
-- zero and saturate at the integer type's bounds).

/-- Truncation of a rational toward zero (Rust `f64 as` integer cast, pre-saturation). -/
def ratTrunc (q : ℚ) : ℤ := if q ≥ 0 then q.floor else -((-q).floor)

/-- Rust `f64 as u32` (saturating). -/
def f64_as_u32 (q : ℚ) : ℕ := if q < 0 then 0 else min (ratTrunc q).toNat 4294967295

/-- Rust `f64 as u64` (saturating). -/
def f64_as_u64 (q : ℚ) : ℕ := if q < 0 then 0 else min (ratTrunc q).toNat 18446744073709551615

/-- Rust `f64 as i32` (saturating). -/
def f64_as_i32 (q : ℚ) : ℤ := max (-2147483648) (min 2147483647 (ratTrunc q))

-- Model of `str::parse::<f64>` over exact rationals.  The finite decimal/exponent grammar is
-- covered; the special spellings (`inf`, `NaN`), which denote non-finite values and therefore
-- have no rational counterpart, are outside the model.

/-- Numeric value of a digit character list (the list must be all digits to be used). -/
def digitsVal (cs : List Char) : ℕ :=
  cs.foldl (fun acc c => acc * 10 + (c.toNat - 48)) 0

/-- Parse the exponent suffix (`e`/`E`, optional sign, at least one digit), given the
remaining characters after the mantissa.  An empty remainder means exponent `0`. -/
def parseExpSuffix : List Char → Option ℤ
  | [] => some 0
  | c :: rest =>
    if c = 'e' ∨ c = 'E' then
      match rest with
      | '+' :: ds => if ds ≠ [] ∧ ds.all Char.isDigit then some (digitsVal ds) else Option.none
      | '-' :: ds => if ds ≠ [] ∧ ds.all Char.isDigit then some (-(digitsVal ds : ℤ)) else Option.none
      | ds => if ds ≠ [] ∧ ds.all Char.isDigit then some (digitsVal ds) else Option.none
    else Option.none

/-- The digits-and-exponent decomposition of a finite decimal literal: the value denoted is
`(-1)^neg * mantNum / 10^fracLen * 10^exp10`. -/
structure F64Parts where
  neg : Bool
  mantNum : ℕ
  fracLen : ℕ
  exp10 : ℤ
deriving DecidableEq, Repr

/-- The rational value denoted by a decimal decomposition (assembled through `mkRat` so that
it evaluates by kernel reduction). -/
def F64Parts.toRat (p : F64Parts) : ℚ :=
  let mant : ℤ := if p.neg then -(p.mantNum : ℤ) else (p.mantNum : ℤ)
  let e : ℤ := p.exp10 - (p.fracLen : ℤ)
  if 0 ≤ e then mkRat (mant * 10 ^ e.toNat) 1 else mkRat mant (10 ^ (-e).toNat)

/-- The character-level grammar of `str::parse::<f64>` (optional sign, digits with an
optional fraction, optional exponent). -/
def parseF64Parts (s : String) : Option F64Parts :=
  let cs := s.data
  let signAndRest : Bool × List Char :=
    match cs with
    | '+' :: rest => (false, rest)
    | '-' :: rest => (true, rest)
    | _ => (false, cs)
  let neg := signAndRest.1
  let afterSign := signAndRest.2
  let intPart := afterSign.takeWhile Char.isDigit
  let rest1 := afterSign.dropWhile Char.isDigit
  match rest1 with
  | '.' :: rest2 =>
    let fracPart := rest2.takeWhile Char.isDigit
    let rest3 := rest2.dropWhile Char.isDigit
    if intPart = [] ∧ fracPart = [] then Option.none
    else
      match parseExpSuffix rest3 with
      | some e => some ⟨neg, digitsVal (intPart ++ fracPart), fracPart.length, e⟩
      | Option.none => Option.none
  | _ =>
    if intPart = [] then Option.none
    else
      match parseExpSuffix rest1 with
      | some e => some ⟨neg, digitsVal intPart, 0, e⟩
      | Option.none => Option.none

/-- Model of `str::parse::<f64>` (finite decimal literals, optional sign, optional fraction,
optional exponent; the non-finite spellings `inf`/`NaN` have no rational counterpart and are
outside the model). -/
def parseF64 (s : String) : Option ℚ :=
  (parseF64Parts s).map F64Parts.toRat

/-- Smallest number `k` of decimal digits (starting the search at `k`) for which `q * 10^k`
is an integer, with a fuel bound. -/
def decimalSearch (q : ℚ) : ℕ → ℕ → Option ℕ
  | 0, _ => Option.none
  | fuel + 1, k =>
    if (mkRat (q.num * 10 ^ k) q.den).den = 1 then some k else decimalSearch q fuel (k + 1)

/-- Modelled from the spec: Rust's `f64::to_string` on a finite value — the shortest decimal
spelling, with no fractional part printed for integral values. -/
def f64_to_string (q : ℚ) : String :=
  if q.den = 1 then toString q.num
  else
    match decimalSearch q 380 1 with
    | some k =>
      let n := (mkRat (q.num * 10 ^ k) q.den).num.natAbs
      let s := toString n
      let s := if s.length ≤ k then String.mk (List.replicate (k + 1 - s.length) '0') ++ s else s
      let intStr := s.dropRight k
      let fracStr := s.takeRight k
      (if q.num < 0 then "-" else "") ++ intStr ++ "." ++ fracStr
    | Option.none => ""

/-- Splitting a character list at separator characters (empty pieces kept, as Rust's
`str::split` and Lean's `String.split` both do); structural so that it evaluates by kernel
reduction. -/
def splitChars (p : Char → Bool) : List Char → List (List Char)
  | [] => [[]]
  | c :: rest =>
    if p c then [] :: splitChars p rest
    else
      match splitChars p rest with
      | t :: ts => (c :: t) :: ts
      | [] => [[c]]

/-- Model of `str::split` on a character predicate. -/
def stringSplit (s : String) (p : Char → Bool) : List String :=
  (splitChars p s.data).map String.mk

-- The source file proper.

/-- `string_properties`: a single label row. -/
def string_properties (text : String) : List LayoutGroup :=
  let widget := (TextLabel.new text).widget_holder
  [LayoutGroup.mkRow [widget]]

/-- `optionally_update_value`: wrap a partial value function into a live-update callback;
`None` becomes `Message::NoOp`. -/
def optionally_update_value {T : Type} (value : T → Option TaggedValue) (node_id : NodeId)
    (input_index : ℕ) : T → Message :=
  fun input_value =>
    match value input_value with
    | some v => Message.nodeGraph (.setInputValue node_id input_index v)
    | Option.none => Message.noOp

/-- `update_value`: total variant of `optionally_update_value`. -/
def update_value {T : Type} (value : T → TaggedValue) (node_id : NodeId) (input_index : ℕ) :
    T → Message :=
  optionally_update_value (fun v => some (value v)) node_id input_index

/-- `commit_value`: every commit callback requests a transaction boundary. -/
def commit_value {T : Type} (_ : T) : Message := Message.documentAddTransaction

/-- `expose_widget`: the expose/unexpose button placed at the start of every row. -/
def expose_widget (node_id : NodeId) (index : ℕ) (data_type : FrontendGraphDataType)
    (exposed : Bool) : WidgetHolder :=
  ((((ParameterExposeButton.new.set_exposed exposed).set_data_type data_type).set_tooltip
      "Expose this parameter as a node input in the graph").on_update
    (fun _parameter => Message.nodeGraph (.exposeInput node_id index (!exposed) true))).widget_holder

/-- `add_blank_assist`: the two separators standing in for an assist column. -/
def add_blank_assist (widgets : List WidgetHolder) : List WidgetHolder :=
  widgets ++ [(Separator.new .section).widget_holder, (Separator.new .unrelated).widget_holder]

/-- `start_widgets`: expose button plus name label (with description tooltip); empty when the
input index is invalid. -/
def start_widgets (document_node : DocumentNode) (node_id : NodeId) (index : ℕ)
    (name description : String) (data_type : FrontendGraphDataType) (blank_assist : Bool) :
    List WidgetHolder :=
  match document_node.inputs.get? index with
  | Option.none => []
  | some input =>
    let widgets := [expose_widget node_id index data_type input.is_exposed,
      ((TextLabel.new name).set_tooltip description).widget_holder]
    if blank_assist then add_blank_assist widgets else widgets

/-- `text_widget`. -/
def text_widget (document_node : DocumentNode) (node_id : NodeId) (index : ℕ)
    (name description : String) (blank_assist : Bool) : List WidgetHolder :=
  let widgets := start_widgets document_node node_id index name description .general blank_assist
  match document_node.inputs.get? index with
  | Option.none => []
  | some input =>
    match input.as_non_exposed_value with
    | some (.string x) =>
      widgets ++ [(Separator.new .unrelated).widget_holder,
        (((TextInput.new x).on_update
            (update_value (fun s : String => TaggedValue.string s) node_id index)).on_commit
          commit_value).widget_holder]
    | _ => widgets

/-- `text_area_widget`. -/
def text_area_widget (document_node : DocumentNode) (node_id : NodeId) (index : ℕ)
    (name description : String) (blank_assist : Bool) : List WidgetHolder :=
  let widgets := start_widgets document_node node_id index name description .general blank_assist
  match document_node.inputs.get? index with
  | Option.none => []
  | some input =>
    match input.as_non_exposed_value with
    | some (.string x) =>
      widgets ++ [(Separator.new .unrelated).widget_holder,
        (((TextAreaInput.new x).on_update
            (update_value (fun s : String => TaggedValue.string s) node_id index)).on_commit
          commit_value).widget_holder]
    | _ => widgets

/-- `bool_widget`. -/
def bool_widget (document_node : DocumentNode) (node_id : NodeId) (index : ℕ)
    (name description : String) (checkbox_input : CheckboxInput) (blank_assist : Bool) :
    List WidgetHolder :=
  let widgets := start_widgets document_node node_id index name description .general blank_assist
  match document_node.inputs.get? index with
  | Option.none => []
  | some input =>
    match input.as_non_exposed_value with
    | some (.bool x) =>
      widgets ++ [(Separator.new .unrelated).widget_holder,
        (((checkbox_input.set_checked x).on_update
            (update_value (fun checked : Bool => TaggedValue.bool checked) node_id index)).on_commit
          commit_value).widget_holder]
    | _ => widgets

/-- `footprint_widget`: three rows (location, scale, resolution), each callback recomputing
the full composite footprint value. -/
def footprint_widget (document_node : DocumentNode) (node_id : NodeId) (index : ℕ) :
    List LayoutGroup :=
  let location_widgets := start_widgets document_node node_id index "Footprint" "TODO" .general true
  let location_widgets := location_widgets ++ [(Separator.new .unrelated).widget_holder]
  let scale_widgets := add_blank_assist [(TextLabel.new "").widget_holder]
  let scale_widgets := scale_widgets ++ [(Separator.new .unrelated).widget_holder]
  let resolution_widgets := add_blank_assist [(TextLabel.new "").widget_holder]
  let resolution_widgets := resolution_widgets ++ [(Separator.new .unrelated).widget_holder]
  match document_node.inputs.get? index with
  | Option.none => []
  | some input =>
    match input.as_non_exposed_value with
    | some (.footprint footprint) =>
      let top_left := footprint.transform.transform_point2_zero
      let bounds := footprint.scale
      let oversample := ((footprint.resolution.1 : ℚ) / bounds.1, (footprint.resolution.2 : ℚ) / bounds.2)
      let location_widgets := location_widgets ++
        [(((((NumberInput.new (some top_left.1)).set_label "X").set_unit " px").on_update
            (update_value (fun v : Option ℚ =>
              let diff := (top_left.1 - v.getD 0, (0 : ℚ))
              let offset := (top_left.1 - diff.1, top_left.2 - diff.2)
              let scale := bounds
              TaggedValue.footprint
                { transform := { scale := scale, translation := offset },
                  resolution := (f64_as_u32 (oversample.1 * scale.1), f64_as_u32 (oversample.2 * scale.2)) })
              node_id index)).on_commit commit_value).widget_holder,
         (Separator.new .related).widget_holder,
         (((((NumberInput.new (some top_left.2)).set_label "Y").set_unit " px").on_update
            (update_value (fun v : Option ℚ =>
              let diff := ((0 : ℚ), top_left.2 - v.getD 0)
              let offset := (top_left.1 - diff.1, top_left.2 - diff.2)
              let scale := bounds
              TaggedValue.footprint
                { transform := { scale := scale, translation := offset },
                  resolution := (f64_as_u32 (oversample.1 * scale.1), f64_as_u32 (oversample.2 * scale.2)) })
              node_id index)).on_commit commit_value).widget_holder]
      let scale_widgets := scale_widgets ++
        [(((((NumberInput.new (some bounds.1)).set_label "W").set_unit " px").on_update
            (update_value (fun v : Option ℚ =>
              let offset := top_left
              let scale := (v.getD 0, bounds.2)
              TaggedValue.footprint
                { transform := { scale := scale, translation := offset },
                  resolution := (f64_as_u32 (oversample.1 * scale.1), f64_as_u32 (oversample.2 * scale.2)) })
              node_id index)).on_commit commit_value).widget_holder,
         (Separator.new .related).widget_holder,
         (((((NumberInput.new (some bounds.2)).set_label "H").set_unit " px").on_update
            (update_value (fun v : Option ℚ =>
              let offset := top_left
              let scale := (bounds.1, v.getD 0)
              TaggedValue.footprint
                { transform := { scale := scale, translation := offset },
                  resolution := (f64_as_u32 (oversample.1 * scale.1), f64_as_u32 (oversample.2 * scale.2)) })
              node_id index)).on_commit commit_value).widget_holder]
      let resolution_widgets := resolution_widgets ++
        [(((((NumberInput.new (some (((footprint.resolution.1 : ℚ) / bounds.1) * 100))).set_label
              "Resolution").set_unit "%").on_update
            (update_value (fun v : Option ℚ =>
              let resolution :=
                (min (max (f64_as_u32 (bounds.1 * v.getD 100 / 100)) 1) 4000,
                 min (max (f64_as_u32 (bounds.2 * v.getD 100 / 100)) 1) 4000)
              TaggedValue.footprint { footprint with resolution := resolution })
              node_id index)).on_commit commit_value).widget_holder]
      [LayoutGroup.mkRow location_widgets, LayoutGroup.mkRow scale_widgets,
       LayoutGroup.mkRow resolution_widgets]
    | _ =>
      [LayoutGroup.mkRow location_widgets, LayoutGroup.mkRow scale_widgets,
       LayoutGroup.mkRow resolution_widgets]

/-- `vec2_widget`: a two-component numeric row over a DVec2/IVec2/UVec2 slot, or an F64 slot
being converted into a DVec2 (used by the Grid node's spacing). -/
def vec2_widget (document_node : DocumentNode) (node_id : NodeId) (index : ℕ)
    (name description x y unit : String) (min : Option ℚ)
    (assist : List WidgetHolder → List WidgetHolder) : LayoutGroup :=
  let widgets := start_widgets document_node node_id index name description .number false
  let widgets := assist widgets
  match document_node.inputs.get? index with
  | Option.none => LayoutGroup.mkRow []
  | some input =>
    match input.as_non_exposed_value with
    | some (.dvec2 dvec2) =>
      LayoutGroup.mkRow (widgets ++
        [(Separator.new .unrelated).widget_holder,
         (((((((NumberInput.new (some dvec2.1)).set_label x).set_unit unit).set_min
              (.finite (min.getD (-9007199254740992)))).set_max (.finite 9007199254740992)).on_update
            (update_value (fun v : Option ℚ => TaggedValue.dvec2 (f64unwrap v, dvec2.2)) node_id index)).on_commit
           commit_value).widget_holder,
         (Separator.new .related).widget_holder,
         (((((((NumberInput.new (some dvec2.2)).set_label y).set_unit unit).set_min
              (.finite (min.getD (-9007199254740992)))).set_max (.finite 9007199254740992)).on_update
            (update_value (fun v : Option ℚ => TaggedValue.dvec2 (dvec2.1, f64unwrap v)) node_id index)).on_commit
           commit_value).widget_holder])
    | some (.ivec2 ivec2) =>
      LayoutGroup.mkRow (widgets ++
        [(Separator.new .unrelated).widget_holder,
         ((((((((NumberInput.new (some (ivec2.1 : ℚ))).int).set_label x).set_unit unit).set_min
              (.finite (min.getD (-9007199254740992)))).set_max (.finite 9007199254740992)).on_update
            (update_value (fun v : Option ℚ => TaggedValue.ivec2 (f64_as_i32 (f64unwrap v), ivec2.2))
              node_id index)).on_commit commit_value).widget_holder,
         (Separator.new .related).widget_holder,
         ((((((((NumberInput.new (some (ivec2.2 : ℚ))).int).set_label y).set_unit unit).set_min
              (.finite (min.getD (-9007199254740992)))).set_max (.finite 9007199254740992)).on_update
            (update_value (fun v : Option ℚ => TaggedValue.ivec2 (ivec2.1, f64_as_i32 (f64unwrap v)))
              node_id index)).on_commit commit_value).widget_holder])
    | some (.uvec2 uvec2) =>
      LayoutGroup.mkRow (widgets ++
        [(Separator.new .unrelated).widget_holder,
         ((((((((NumberInput.new (some (uvec2.1 : ℚ))).int).set_label x).set_unit unit).set_min
              (.finite (min.getD 0))).set_max (.finite 9007199254740992)).on_update
            (update_value (fun v : Option ℚ => TaggedValue.uvec2 (f64_as_u32 (f64unwrap v), uvec2.2))
              node_id index)).on_commit commit_value).widget_holder,
         (Separator.new .related).widget_holder,
         ((((((((NumberInput.new (some (uvec2.2 : ℚ))).int).set_label y).set_unit unit).set_min
              (.finite (min.getD 0))).set_max (.finite 9007199254740992)).on_update
            (update_value (fun v : Option ℚ => TaggedValue.uvec2 (uvec2.1, f64_as_u32 (f64unwrap v)))
              node_id index)).on_commit commit_value).widget_holder])
    | some (.f64 value) =>
      LayoutGroup.mkRow (widgets ++
        [(Separator.new .unrelated).widget_holder,
         (((((((NumberInput.new (some value)).set_label x).set_unit unit).set_min
              (.finite (min.getD (-9007199254740992)))).set_max (.finite 9007199254740992)).on_update
            (update_value (fun v : Option ℚ => TaggedValue.dvec2 (f64unwrap v, value)) node_id index)).on_commit
           commit_value).widget_holder,
         (Separator.new .related).widget_holder,
         (((((((NumberInput.new (some value)).set_label y).set_unit unit).set_min
              (.finite (min.getD (-9007199254740992)))).set_max (.finite 9007199254740992)).on_update
            (update_value (fun v : Option ℚ => TaggedValue.dvec2 (value, f64unwrap v)) node_id index)).on_commit
           commit_value).widget_holder])
    | _ => LayoutGroup.mkRow widgets

/-- The local `from_string` closure of `vec_f64_input`: split on commas/spaces, drop empty
tokens, parse every token; any failure yields `None`. -/
def vec_f64_from_string (string : String) : Option TaggedValue :=
  (((stringSplit string (fun c => c == ',' || c == ' ')).filter (fun x => !x.isEmpty)).mapM
    parseF64).map TaggedValue.vecF64

/-- The serialization of a float list shown by `vec_f64_input`
(`x.iter().map(|v| v.to_string()).collect::<Vec<_>>().join(", ")`). -/
def serializeVecF64 (l : List ℚ) : String :=
  String.intercalate ", " (l.map f64_to_string)

/-- `vec_f64_input`: free-text editor for a float list. -/
def vec_f64_input (document_node : DocumentNode) (node_id : NodeId) (index : ℕ)
    (name description : String) (text_input : TextInput) (blank_assist : Bool) :
    List WidgetHolder :=
  let widgets := start_widgets document_node node_id index name description .number blank_assist
  match document_node.inputs.get? index with
  | Option.none => []
  | some input =>
    match input.as_non_exposed_value with
    | some (.vecF64 x) =>
      widgets ++ [(Separator.new .unrelated).widget_holder,
        ((text_input.set_value (serializeVecF64 x)).on_update
          (optionally_update_value (fun s : String => vec_f64_from_string s) node_id index)).widget_holder]
    | _ => widgets

/-- Rust `chunks_exact(2)` paired into DVec2s (a trailing odd element is dropped). -/
def chunksExact2 : List ℚ → List (ℚ × ℚ)
  | a :: b :: rest => (a, b) :: chunksExact2 rest
  | _ => []

/-- The local `from_string` closure of `vec_dvec2_input`: split on any character that is not
alphanumeric nor `.`/`+`/`-`, drop empty tokens, parse every token, then pair them up. -/
def vec_dvec2_from_string (string : String) : Option TaggedValue :=
  (((stringSplit string (fun c => !(c.isAlphanum || c == '.' || c == '+' || c == '-'))).filter
      (fun x => !x.isEmpty)).mapM parseF64).map
    (fun numbers => TaggedValue.vecDVec2 (chunksExact2 numbers))

/-- The serialization of a point list shown by `vec_dvec2_input`. -/
def serializeVecDVec2 (l : List (ℚ × ℚ)) : String :=
  String.intercalate ", "
    (l.map (fun v => "(" ++ f64_to_string v.1 ++ ", " ++ f64_to_string v.2 ++ ")"))

/-- `vec_dvec2_input`: free-text editor for a point list. -/
def vec_dvec2_input (document_node : DocumentNode) (node_id : NodeId) (index : ℕ)
    (name description : String) (text_props : TextInput) (blank_assist : Bool) :
    List WidgetHolder :=
  let widgets := start_widgets document_node node_id index name description .number blank_assist
  match document_node.inputs.get? index with
  | Option.none => []
  | some input =>
    match input.as_non_exposed_value with
    | some (.vecDVec2 x) =>
      widgets ++ [(Separator.new .unrelated).widget_holder,
        ((text_props.set_value (serializeVecDVec2 x)).on_update
          (optionally_update_value (fun s : String => vec_dvec2_from_string s) node_id index)).widget_holder]
    | _ => widgets

/-- `font_inputs`: the font-family picker row and (for a font value) the style-picker row. -/
def font_inputs (document_node : DocumentNode) (node_id : NodeId) (index : ℕ)
    (name description : String) (blank_assist : Bool) :
    List WidgetHolder × Option (List WidgetHolder) :=
  let first_widgets := start_widgets document_node node_id index name description .general blank_assist
  match document_node.inputs.get? index with
  | Option.none => ([], Option.none)
  | some input =>
    match input.as_non_exposed_value with
    | some (.font font) =>
      let first_widgets := first_widgets ++
        [(Separator.new .unrelated).widget_holder,
         (((FontInput.new font.1 font.2).on_update
             (update_value (fun f : Font => TaggedValue.font (f.1, f.2)) node_id index)).on_commit
           commit_value).widget_holder]
      let second_row := add_blank_assist [(TextLabel.new "").widget_holder]
      let second_row := second_row ++
        [(Separator.new .unrelated).widget_holder,
         ((((FontInput.new font.1 font.2).set_is_style_picker true).on_update
             (update_value (fun f : Font => TaggedValue.font (f.1, f.2)) node_id index)).on_commit
           commit_value).widget_holder]
      (first_widgets, some second_row)
    | _ => (first_widgets, Option.none)

/-- `vector_widget`: vector data is supplied through the graph, label only. -/
def vector_widget (document_node : DocumentNode) (node_id : NodeId) (index : ℕ)
    (name description : String) (blank_assist : Bool) : List WidgetHolder :=
  let widgets := start_widgets document_node node_id index name description .vectorData blank_assist
  widgets ++ [(Separator.new .unrelated).widget_holder,
    (TextLabel.new "Vector data is supplied through the node graph").widget_holder]

/-- `raster_widget`: raster data is supplied through the graph, label only. -/
def raster_widget (document_node : DocumentNode) (node_id : NodeId) (index : ℕ)
    (name description : String) (blank_assist : Bool) : List WidgetHolder :=
  let widgets := start_widgets document_node node_id index name description .raster blank_assist
  widgets ++ [(Separator.new .unrelated).widget_holder,
    (TextLabel.new "Raster data is supplied through the node graph").widget_holder]

/-- `group_widget`: group data is supplied through the graph, label only. -/
def group_widget (document_node : DocumentNode) (node_id : NodeId) (index : ℕ)
    (name description : String) (blank_assist : Bool) : List WidgetHolder :=
  let widgets := start_widgets document_node node_id index name description .group blank_assist
  widgets ++ [(Separator.new .unrelated).widget_holder,
    (TextLabel.new "Group data is supplied through the node graph").widget_holder]

/-- `number_widget`: the numeric control over an F64/U32/U64/OptionalF64 slot, or over a
DVec2 slot (read back as an F64 — the Grid node's spacing transfer). -/
def number_widget (document_node : DocumentNode) (node_id : NodeId) (index : ℕ)
    (name description : String) (number_props : NumberInput) (blank_assist : Bool) :
    List WidgetHolder :=
  let widgets := start_widgets document_node node_id index name description .number blank_assist
  match document_node.inputs.get? index with
  | Option.none => []
  | some input =>
    match input.as_non_exposed_value with
    | some (.f64 x) =>
      widgets ++ [(Separator.new .unrelated).widget_holder,
        (((number_props.set_value (some x)).on_update
            (update_value (fun v : Option ℚ => TaggedValue.f64 (f64unwrap v)) node_id index)).on_commit
          commit_value).widget_holder]
    | some (.u32 x) =>
      widgets ++ [(Separator.new .unrelated).widget_holder,
        (((number_props.set_value (some (x : ℚ))).on_update
            (update_value (fun v : Option ℚ => TaggedValue.u32 (f64_as_u32 (f64unwrap v))) node_id
              index)).on_commit commit_value).widget_holder]
    | some (.u64 x) =>
      widgets ++ [(Separator.new .unrelated).widget_holder,
        (((number_props.set_value (some (x : ℚ))).on_update
            (update_value (fun v : Option ℚ => TaggedValue.u64 (f64_as_u64 (f64unwrap v))) node_id
              index)).on_commit commit_value).widget_holder]
    | some (.optionalF64 x) =>
      widgets ++ [(Separator.new .unrelated).widget_holder,
        (Separator.new .related).widget_holder,
        (((CheckboxInput.new x.isSome).on_update
            (update_value (fun checked : Bool =>
              TaggedValue.optionalF64 (if checked then some 100 else Option.none)) node_id
              index)).on_commit commit_value).widget_holder,
        (Separator.new .related).widget_holder,
        (Separator.new .unrelated).widget_holder,
        ((((number_props.set_value x).on_update
             (update_value (fun v : Option ℚ => TaggedValue.optionalF64 v) node_id
               index)).set_disabled x.isNone).on_commit commit_value).widget_holder]
    | some (.dvec2 dvec2) =>
      widgets ++ [(Separator.new .unrelated).widget_holder,
        (((number_props.set_value (some dvec2.2)).on_update
            (update_value (fun v : Option ℚ => TaggedValue.f64 (f64unwrap v)) node_id
              index)).on_commit commit_value).widget_holder]
    | _ => widgets

-- Debug/display spellings and discriminants of the dropdown enums (modelled from the spec:
-- each enumeration provides `Debug`, `Display` and a `u32` discriminant used as the
-- selected index).

/-- Modelled from the spec: debug spelling of a color channel. -/
def RedGreenBlue.debugStr : RedGreenBlue → String
  | .red => "Red"
  | .green => "Green"
  | .blue => "Blue"

/-- Modelled from the spec: discriminant of a color channel. -/
def RedGreenBlue.toIndex : RedGreenBlue → ℕ
  | .red => 0
  | .green => 1
  | .blue => 2

/-- Modelled from the spec: debug spelling of an RGBA channel. -/
def RedGreenBlueAlpha.debugStr : RedGreenBlueAlpha → String
  | .red => "Red"
  | .green => "Green"
  | .blue => "Blue"
  | .alpha => "Alpha"

/-- Modelled from the spec: discriminant of an RGBA channel. -/
def RedGreenBlueAlpha.toIndex : RedGreenBlueAlpha → ℕ
  | .red => 0
  | .green => 1
  | .blue => 2
  | .alpha => 3

/-- Modelled from the spec: debug spelling of a real-time mode. -/
def RealTimeMode.debugStr : RealTimeMode → String
  | .utc => "Utc"
  | .year => "Year"
  | .hour => "Hour"
  | .minute => "Minute"
  | .second => "Second"
  | .millisecond => "Millisecond"

/-- Modelled from the spec: discriminant of a real-time mode. -/
def RealTimeMode.toIndex : RealTimeMode → ℕ
  | .utc => 0
  | .year => 1
  | .hour => 2
  | .minute => 3
  | .second => 4
  | .millisecond => 5

/-- Modelled from the spec: debug spelling of a vector component. -/
def XY.debugStr : XY → String
  | .x => "X"
  | .y => "Y"

/-- Modelled from the spec: discriminant of a vector component. -/
def XY.toIndex : XY → ℕ
  | .x => 0
  | .y => 1

/-- Modelled from the spec: debug spelling of a noise type. -/
def NoiseType.debugStr : NoiseType → String
  | .perlin => "Perlin"
  | .openSimplex2 => "OpenSimplex2"
  | .openSimplex2S => "OpenSimplex2S"
  | .cellular => "Cellular"
  | .valueCubic => "ValueCubic"
  | .value => "Value"
  | .whiteNoise => "WhiteNoise"

/-- Modelled from the spec: discriminant of a noise type. -/
def NoiseType.toIndex : NoiseType → ℕ
  | .perlin => 0
  | .openSimplex2 => 1
  | .openSimplex2S => 2
  | .cellular => 3
  | .valueCubic => 4
  | .value => 5
  | .whiteNoise => 6

/-- Modelled from the spec: debug spelling of a fractal type. -/
def FractalType.debugStr : FractalType → String
  | .none => "None"
  | .fbm => "FBm"
  | .ridged => "Ridged"
  | .pingPong => "PingPong"
  | .domainWarpProgressive => "DomainWarpProgressive"
  | .domainWarpIndependent => "DomainWarpIndependent"

/-- Modelled from the spec: discriminant of a fractal type. -/
def FractalType.toIndex : FractalType → ℕ
  | .none => 0
  | .fbm => 1
  | .ridged => 2
  | .pingPong => 3
  | .domainWarpProgressive => 4
  | .domainWarpIndependent => 5

/-- Modelled from the spec: debug spelling of a cellular distance function. -/
def CellularDistanceFunction.debugStr : CellularDistanceFunction → String
  | .euclidean => "Euclidean"
  | .euclideanSq => "EuclideanSq"
  | .manhattan => "Manhattan"
  | .hybrid => "Hybrid"

/-- Modelled from the spec: discriminant of a cellular distance function. -/
def CellularDistanceFunction.toIndex : CellularDistanceFunction → ℕ
  | .euclidean => 0
  | .euclideanSq => 1
  | .manhattan => 2
  | .hybrid => 3

/-- Modelled from the spec: debug spelling of a cellular return type. -/
def CellularReturnType.debugStr : CellularReturnType → String
  | .cellValue => "CellValue"
  | .nearest => "Nearest"
  | .nextNearest => "NextNearest"
  | .average => "Average"

/-- Modelled from the spec: discriminant of a cellular return type. -/
def CellularReturnType.toIndex : CellularReturnType → ℕ
  | .cellValue => 0
  | .nearest => 1
  | .nextNearest => 2
  | .average => 3

/-- Modelled from the spec: debug spelling of a domain warp type. -/
def DomainWarpType.debugStr : DomainWarpType → String
  | .none => "None"
  | .openSimplex2 => "OpenSimplex2"
  | .openSimplex2Reduced => "OpenSimplex2Reduced"
  | .basicGrid => "BasicGrid"

/-- Modelled from the spec: discriminant of a domain warp type. -/
def DomainWarpType.toIndex : DomainWarpType → ℕ
  | .none => 0
  | .openSimplex2 => 1
  | .openSimplex2Reduced => 2
  | .basicGrid => 3

/-- Modelled from the spec: debug spelling of a blend mode. -/
def BlendMode.debugStr : BlendMode → String
  | .normal => "Normal"
  | .multiply => "Multiply"
  | .darken => "Darken"
  | .colorBurn => "ColorBurn"
  | .screen => "Screen"
  | .lighten => "Lighten"
  | .colorDodge => "ColorDodge"
  | .overlay => "Overlay"
  | .softLight => "SoftLight"
  | .hardLight => "HardLight"
  | .difference => "Difference"
  | .exclusion => "Exclusion"
  | .hue => "Hue"
  | .saturation => "Saturation"
  | .color => "Color"
  | .luminosity => "Luminosity"

/-- Modelled from the spec: debug spelling of a luminance formula. -/
def LuminanceCalculation.debugStr : LuminanceCalculation → String
  | .srgb => "SRGB"
  | .perceptual => "Perceptual"
  | .averageChannels => "AverageChannels"
  | .minimumChannels => "MinimumChannels"
  | .maximumChannels => "MaximumChannels"

/-- Modelled from the spec: discriminant of a luminance formula. -/
def LuminanceCalculation.toIndex : LuminanceCalculation → ℕ
  | .srgb => 0
  | .perceptual => 1
  | .averageChannels => 2
  | .minimumChannels => 3
  | .maximumChannels => 4

/-- Modelled from the spec: debug spelling of a boolean-set operation. -/
def BooleanOperation.debugStr : BooleanOperation → String
  | .union => "Union"
  | .subtractFront => "SubtractFront"
  | .subtractBack => "SubtractBack"
  | .intersect => "Intersect"
  | .difference => "Difference"

/-- Modelled from the spec: discriminant of a boolean-set operation. -/
def BooleanOperation.toIndex : BooleanOperation → ℕ
  | .union => 0
  | .subtractFront => 1
  | .subtractBack => 2
  | .intersect => 3
  | .difference => 4

/-- Modelled from the spec: debug spelling of a grid type. -/
def GridType.debugStr : GridType → String
  | .rectangular => "Rectangular"
  | .isometric => "Isometric"

/-- Modelled from the spec: discriminant of a grid type. -/
def GridType.toIndex : GridType → ℕ
  | .rectangular => 0
  | .isometric => 1

/-- Modelled from the spec: debug spelling of a line cap. -/
def LineCap.debugStr : LineCap → String
  | .butt => "Butt"
  | .round => "Round"
  | .square => "Square"

/-- Modelled from the spec: discriminant of a line cap. -/
def LineCap.toIndex : LineCap → ℕ
  | .butt => 0
  | .round => 1
  | .square => 2

/-- Modelled from the spec: debug spelling of a line join. -/
def LineJoin.debugStr : LineJoin → String
  | .miter => "Miter"
  | .bevel => "Bevel"
  | .round => "Round"

/-- Modelled from the spec: discriminant of a line join. -/
def LineJoin.toIndex : LineJoin → ℕ
  | .miter => 0
  | .bevel => 1
  | .round => 2

/-- Modelled from the spec: debug spelling of an arc type. -/
def ArcType.debugStr : ArcType → String
  | .open => "Open"
  | .closed => "Closed"
  | .pieSlice => "PieSlice"

/-- Modelled from the spec: discriminant of an arc type. -/
def ArcType.toIndex : ArcType → ℕ
  | .open => 0
  | .closed => 1
  | .pieSlice => 2

/-- Modelled from the spec: discriminant of a gradient type. -/
def GradientType.toIndex : GradientType → ℕ
  | .linear => 0
  | .radial => 1

/-- `color_channel`: RGB channel dropdown. -/
def color_channel (document_node : DocumentNode) (node_id : NodeId) (index : ℕ)
    (name description : String) (blank_assist : Bool) : LayoutGroup :=
  let widgets := start_widgets document_node node_id index name description .general blank_assist
  match document_node.inputs.get? index with
  | Option.none => LayoutGroup.mkRow []
  | some input =>
    match input.as_non_exposed_value with
    | some (.redGreenBlue mode) =>
      let calculation_modes := [RedGreenBlue.red, RedGreenBlue.green, RedGreenBlue.blue]
      let entries := calculation_modes.map (fun method =>
        (((MenuListEntry.new method.debugStr).set_label method.debugStr).on_update
          (update_value (fun _ : Unit => TaggedValue.redGreenBlue method) node_id index)).on_commit
          commit_value)
      (LayoutGroup.mkRow (widgets ++ [(Separator.new .unrelated).widget_holder,
        ((DropdownInput.new [entries]).set_selected_index (some mode.toIndex)).widget_holder])).with_tooltip
        "Color Channel"
    | _ => (LayoutGroup.mkRow widgets).with_tooltip "Color Channel"

/-- `real_time_mode`: real-time mode dropdown. -/
def real_time_mode (document_node : DocumentNode) (node_id : NodeId) (index : ℕ)
    (name description : String) (blank_assist : Bool) : LayoutGroup :=
  let widgets := start_widgets document_node node_id index name description .general blank_assist
  match document_node.inputs.get? index with
  | Option.none => LayoutGroup.mkRow []
  | some input =>
    match input.as_non_exposed_value with
    | some (.realTimeMode mode) =>
      let calculation_modes := [RealTimeMode.utc, RealTimeMode.year, RealTimeMode.hour,
        RealTimeMode.minute, RealTimeMode.second, RealTimeMode.millisecond]
      let entries := calculation_modes.map (fun method =>
        (((MenuListEntry.new method.debugStr).set_label method.debugStr).on_update
          (update_value (fun _ : Unit => TaggedValue.realTimeMode method) node_id index)).on_commit
          commit_value)
      (LayoutGroup.mkRow (widgets ++ [(Separator.new .unrelated).widget_holder,
        ((DropdownInput.new [entries]).set_selected_index (some mode.toIndex)).widget_holder])).with_tooltip
        "Real Time Mode"
    | _ => (LayoutGroup.mkRow widgets).with_tooltip "Real Time Mode"

/-- `rgba_channel`: RGBA channel dropdown. -/
def rgba_channel (document_node : DocumentNode) (node_id : NodeId) (index : ℕ)
    (name description : String) (blank_assist : Bool) : LayoutGroup :=
  let widgets := start_widgets document_node node_id index name description .general blank_assist
  match document_node.inputs.get? index with
  | Option.none => LayoutGroup.mkRow []
  | some input =>
    match input.as_non_exposed_value with
    | some (.redGreenBlueAlpha mode) =>
      let calculation_modes := [RedGreenBlueAlpha.red, RedGreenBlueAlpha.green,
        RedGreenBlueAlpha.blue, RedGreenBlueAlpha.alpha]
      let entries := calculation_modes.map (fun method =>
        (((MenuListEntry.new method.debugStr).set_label method.debugStr).on_update
          (update_value (fun _ : Unit => TaggedValue.redGreenBlueAlpha method) node_id index)).on_commit
          commit_value)
      (LayoutGroup.mkRow (widgets ++ [(Separator.new .unrelated).widget_holder,
        ((DropdownInput.new [entries]).set_selected_index (some mode.toIndex)).widget_holder])).with_tooltip
        "Color Channel"
    | _ => (LayoutGroup.mkRow widgets).with_tooltip "Color Channel"

/-- `xy_components`: X/Y component dropdown. -/
def xy_components (document_node : DocumentNode) (node_id : NodeId) (index : ℕ)
    (name description : String) (blank_assist : Bool) : LayoutGroup :=
  let widgets := start_widgets document_node node_id index name description .general blank_assist
  match document_node.inputs.get? index with
  | Option.none => LayoutGroup.mkRow []
  | some input =>
    match input.as_non_exposed_value with
    | some (.xy mode) =>
      let calculation_modes := [XY.x, XY.y]
      let entries := calculation_modes.map (fun method =>
        (((MenuListEntry.new method.debugStr).set_label method.debugStr).on_update
          (update_value (fun _ : Unit => TaggedValue.xy method) node_id index)).on_commit
          commit_value)
      (LayoutGroup.mkRow (widgets ++ [(Separator.new .unrelated).widget_holder,
        ((DropdownInput.new [entries]).set_selected_index (some mode.toIndex)).widget_holder])).with_tooltip
        "X or Y Component of Vector2"
    | _ => (LayoutGroup.mkRow widgets).with_tooltip "X or Y Component of Vector2"

/-- `noise_type`: noise pattern dropdown. -/
def noise_type (document_node : DocumentNode) (node_id : NodeId) (index : ℕ)
    (name description : String) (blank_assist : Bool) : LayoutGroup :=
  let widgets := start_widgets document_node node_id index name description .general blank_assist
  match document_node.inputs.get? index with
  | Option.none => LayoutGroup.mkRow []
  | some input =>
    match input.as_non_exposed_value with
    | some (.noiseType nt) =>
      let entries := NoiseType.list.map (fun nt' =>
        (((MenuListEntry.new nt'.debugStr).set_label nt'.debugStr).on_update
          (update_value (fun _ : Unit => TaggedValue.noiseType nt') node_id index)).on_commit
          commit_value)
      (LayoutGroup.mkRow (widgets ++ [(Separator.new .unrelated).widget_holder,
        ((DropdownInput.new [entries]).set_selected_index (some nt.toIndex)).widget_holder])).with_tooltip
        "Style of noise pattern"
    | _ => (LayoutGroup.mkRow widgets).with_tooltip "Style of noise pattern"

/-- `fractal_type`: fractal dropdown (optionally disabled). -/
def fractal_type (document_node : DocumentNode) (node_id : NodeId) (index : ℕ)
    (name description : String) (blank_assist : Bool) (disabled : Bool) : LayoutGroup :=
  let widgets := start_widgets document_node node_id index name description .general blank_assist
  match document_node.inputs.get? index with
  | Option.none => LayoutGroup.mkRow []
  | some input =>
    match input.as_non_exposed_value with
    | some (.fractalType ft) =>
      let entries := FractalType.list.map (fun ft' =>
        (((MenuListEntry.new ft'.debugStr).set_label ft'.debugStr).on_update
          (update_value (fun _ : Unit => TaggedValue.fractalType ft') node_id index)).on_commit
          commit_value)
      (LayoutGroup.mkRow (widgets ++ [(Separator.new .unrelated).widget_holder,
        (((DropdownInput.new [entries]).set_selected_index (some ft.toIndex)).set_disabled
          disabled).widget_holder])).with_tooltip "Style of layered levels of the noise pattern"
    | _ => (LayoutGroup.mkRow widgets).with_tooltip "Style of layered levels of the noise pattern"

/-- `cellular_distance_function`: cellular distance dropdown (optionally disabled). -/
def cellular_distance_function (document_node : DocumentNode) (node_id : NodeId) (index : ℕ)
    (name description : String) (blank_assist : Bool) (disabled : Bool) : LayoutGroup :=
  let widgets := start_widgets document_node node_id index name description .general blank_assist
  match document_node.inputs.get? index with
  | Option.none => LayoutGroup.mkRow []
  | some input =>
    match input.as_non_exposed_value with
    | some (.cellularDistanceFunction cdf) =>
      let entries := CellularDistanceFunction.list.map (fun cdf' =>
        (((MenuListEntry.new cdf'.debugStr).set_label cdf'.debugStr).on_update
          (update_value (fun _ : Unit => TaggedValue.cellularDistanceFunction cdf') node_id
            index)).on_commit commit_value)
      (LayoutGroup.mkRow (widgets ++ [(Separator.new .unrelated).widget_holder,
        (((DropdownInput.new [entries]).set_selected_index (some cdf.toIndex)).set_disabled
          disabled).widget_holder])).with_tooltip "Distance function used by the cellular noise"
    | _ => (LayoutGroup.mkRow widgets).with_tooltip "Distance function used by the cellular noise"

/-- `cellular_return_type`: cellular return dropdown (optionally disabled). -/
def cellular_return_type (document_node : DocumentNode) (node_id : NodeId) (index : ℕ)
    (name description : String) (blank_assist : Bool) (disabled : Bool) : LayoutGroup :=
  let widgets := start_widgets document_node node_id index name description .general blank_assist
  match document_node.inputs.get? index with
  | Option.none => LayoutGroup.mkRow []
  | some input =>
    match input.as_non_exposed_value with
    | some (.cellularReturnType crt) =>
      let entries := CellularReturnType.list.map (fun crt' =>
        (((MenuListEntry.new crt'.debugStr).set_label crt'.debugStr).on_update
          (update_value (fun _ : Unit => TaggedValue.cellularReturnType crt') node_id
            index)).on_commit commit_value)
      (LayoutGroup.mkRow (widgets ++ [(Separator.new .unrelated).widget_holder,
        (((DropdownInput.new [entries]).set_selected_index (some crt.toIndex)).set_disabled
          disabled).widget_holder])).with_tooltip "Return type of the cellular noise"
    | _ => (LayoutGroup.mkRow widgets).with_tooltip "Return type of the cellular noise"

/-- `domain_warp_type`: domain warp dropdown (optionally disabled). -/
def domain_warp_type (document_node : DocumentNode) (node_id : NodeId) (index : ℕ)
    (name description : String) (blank_assist : Bool) (disabled : Bool) : LayoutGroup :=
  let widgets := start_widgets document_node node_id index name description .general blank_assist
  match document_node.inputs.get? index with
  | Option.none => LayoutGroup.mkRow []
  | some input =>
    match input.as_non_exposed_value with
    | some (.domainWarpType dwt) =>
      let entries := DomainWarpType.list.map (fun dwt' =>
        (((MenuListEntry.new dwt'.debugStr).set_label dwt'.debugStr).on_update
          (update_value (fun _ : Unit => TaggedValue.domainWarpType dwt') node_id
            index)).on_commit commit_value)
      (LayoutGroup.mkRow (widgets ++ [(Separator.new .unrelated).widget_holder,
        (((DropdownInput.new [entries]).set_selected_index (some dwt.toIndex)).set_disabled
          disabled).widget_holder])).with_tooltip "Type of domain warp"
    | _ => (LayoutGroup.mkRow widgets).with_tooltip "Type of domain warp"

/-- `blend_mode`: blend mode dropdown over the SVG subset. -/
def blend_mode (document_node : DocumentNode) (node_id : NodeId) (index : ℕ)
    (name description : String) (blank_assist : Bool) : LayoutGroup :=
  let widgets := start_widgets document_node node_id index name description .general blank_assist
  match document_node.inputs.get? index with
  | Option.none => LayoutGroup.mkRow []
  | some input =>
    match input.as_non_exposed_value with
    | some (.blendMode bm) =>
      let entries := BlendMode.list_svg_subset.map (fun category =>
        category.map (fun bm' =>
          (((MenuListEntry.new bm'.debugStr).set_label bm'.debugStr).on_update
            (update_value (fun _ : Unit => TaggedValue.blendMode bm') node_id index)).on_commit
            commit_value))
      (LayoutGroup.mkRow (widgets ++ [(Separator.new .unrelated).widget_holder,
        ((DropdownInput.new entries).set_selected_index
          bm.index_in_list_svg_subset).widget_holder])).with_tooltip "Formula used for blending"
    | _ => (LayoutGroup.mkRow widgets).with_tooltip "Formula used for blending"

/-- `luminance_calculation`: luminance formula dropdown. -/
def luminance_calculation (document_node : DocumentNode) (node_id : NodeId) (index : ℕ)
    (name description : String) (blank_assist : Bool) : LayoutGroup :=
  let widgets := start_widgets document_node node_id index name description .general blank_assist
  match document_node.inputs.get? index with
  | Option.none => LayoutGroup.mkRow []
  | some input =>
    match input.as_non_exposed_value with
    | some (.luminanceCalculation calculation) =>
      let entries := LuminanceCalculation.list.map (fun method =>
        (((MenuListEntry.new method.debugStr).set_label method.debugStr).on_update
          (update_value (fun _ : Unit => TaggedValue.luminanceCalculation method) node_id
            index)).on_commit commit_value)
      (LayoutGroup.mkRow (widgets ++ [(Separator.new .unrelated).widget_holder,
        ((DropdownInput.new [entries]).set_selected_index
          (some calculation.toIndex)).widget_holder])).with_tooltip
        "Formula used to calculate the luminance of a pixel"
    | _ =>
      (LayoutGroup.mkRow widgets).with_tooltip "Formula used to calculate the luminance of a pixel"

/-- `boolean_operation_radio_buttons`: boolean-set operation radio row. -/
def boolean_operation_radio_buttons (document_node : DocumentNode) (node_id : NodeId)
    (index : ℕ) (name description : String) (blank_assist : Bool) : LayoutGroup :=
  let widgets := start_widgets document_node node_id index name description .general blank_assist
  match document_node.inputs.get? index with
  | Option.none => LayoutGroup.mkRow []
  | some input =>
    match input.as_non_exposed_value with
    | some (.booleanOperation calculation) =>
      let entries := (BooleanOperation.list.zip BooleanOperation.icons).map (fun oi =>
        ((((RadioEntryData.new oi.1.debugStr).set_icon oi.2).set_tooltip oi.1.debugStr).on_update
          (update_value (fun _ : Unit => TaggedValue.booleanOperation oi.1) node_id
            index)).on_commit commit_value)
      LayoutGroup.mkRow (widgets ++ [(Separator.new .unrelated).widget_holder,
        ((RadioInput.new entries).set_selected_index (some calculation.toIndex)).widget_holder])
    | _ => LayoutGroup.mkRow widgets

/-- `grid_type_widget`: rectangular/isometric radio row. -/
def grid_type_widget (document_node : DocumentNode) (node_id : NodeId) (index : ℕ)
    (name description : String) (blank_assist : Bool) : LayoutGroup :=
  let widgets := start_widgets document_node node_id index name description .general blank_assist
  match document_node.inputs.get? index with
  | Option.none => LayoutGroup.mkRow []
  | some input =>
    match input.as_non_exposed_value with
    | some (.gridType grid_type) =>
      let entries := [("Rectangular", GridType.rectangular), ("Isometric", GridType.isometric)].map
        (fun nv =>
          (((RadioEntryData.new nv.2.debugStr).set_label nv.1).on_update
            (update_value (fun _ : Unit => TaggedValue.gridType nv.2) node_id index)).on_commit
            commit_value)
      LayoutGroup.mkRow (widgets ++ [(Separator.new .unrelated).widget_holder,
        ((RadioInput.new entries).set_selected_index (some grid_type.toIndex)).widget_holder])
    | _ => LayoutGroup.mkRow widgets

/-- `line_cap_widget`: butt/round/square radio row. -/
def line_cap_widget (document_node : DocumentNode) (node_id : NodeId) (index : ℕ)
    (name description : String) (blank_assist : Bool) : LayoutGroup :=
  let widgets := start_widgets document_node node_id index name description .general blank_assist
  match document_node.inputs.get? index with
  | Option.none => LayoutGroup.mkRow []
  | some input =>
    match input.as_non_exposed_value with
    | some (.lineCap line_cap) =>
      let entries := [("Butt", LineCap.butt), ("Round", LineCap.round),
        ("Square", LineCap.square)].map (fun nv =>
          (((RadioEntryData.new nv.2.debugStr).set_label nv.1).on_update
            (update_value (fun _ : Unit => TaggedValue.lineCap nv.2) node_id index)).on_commit
            commit_value)
      LayoutGroup.mkRow (widgets ++ [(Separator.new .unrelated).widget_holder,
        ((RadioInput.new entries).set_selected_index (some line_cap.toIndex)).widget_holder])
    | _ => LayoutGroup.mkRow widgets

/-- `line_join_widget`: miter/bevel/round radio row. -/
def line_join_widget (document_node : DocumentNode) (node_id : NodeId) (index : ℕ)
    (name description : String) (blank_assist : Bool) : LayoutGroup :=
  let widgets := start_widgets document_node node_id index name description .general blank_assist
  match document_node.inputs.get? index with
  | Option.none => LayoutGroup.mkRow []
  | some input =>
    match input.as_non_exposed_value with
    | some (.lineJoin line_join) =>
      let entries := [("Miter", LineJoin.miter), ("Bevel", LineJoin.bevel),
        ("Round", LineJoin.round)].map (fun nv =>
          (((RadioEntryData.new nv.2.debugStr).set_label nv.1).on_update
            (update_value (fun _ : Unit => TaggedValue.lineJoin nv.2) node_id index)).on_commit
            commit_value)
      LayoutGroup.mkRow (widgets ++ [(Separator.new .unrelated).widget_holder,
        ((RadioInput.new entries).set_selected_index (some line_join.toIndex)).widget_holder])
    | _ => LayoutGroup.mkRow widgets

/-- `arc_type_widget`: open/closed/pie-slice radio row. -/
def arc_type_widget (document_node : DocumentNode) (node_id : NodeId) (index : ℕ)
    (name description : String) (blank_assist : Bool) : LayoutGroup :=
  let widgets := start_widgets document_node node_id index name description .general blank_assist
  match document_node.inputs.get? index with
  | Option.none => LayoutGroup.mkRow []
  | some input =>
    match input.as_non_exposed_value with
    | some (.arcType arc_type) =>
      let entries := [("Open", ArcType.open), ("Closed", ArcType.closed),
        ("Pie Slice", ArcType.pieSlice)].map (fun nv =>
          (((RadioEntryData.new nv.2.debugStr).set_label nv.1).on_update
            (update_value (fun _ : Unit => TaggedValue.arcType nv.2) node_id index)).on_commit
            commit_value)
      LayoutGroup.mkRow (widgets ++ [(Separator.new .unrelated).widget_holder,
        ((RadioInput.new entries).set_selected_index (some arc_type.toIndex)).widget_holder])
    | _ => LayoutGroup.mkRow widgets

/-- `color_widget`: swatch over a Color/OptionalColor/GradientStops slot.  The source indexes
`document_node.inputs[index]` directly, so an invalid index panics. -/
def color_widget (document_node : DocumentNode) (node_id : NodeId) (index : ℕ)
    (name description : String) (color_button : ColorInput) (blank_assist : Bool) :
    Panics LayoutGroup := do
  let widgets := start_widgets document_node node_id index name description .general blank_assist
  let input ← indexPanic document_node.inputs index
  match input with
  | .value tagged_value false =>
    let widgets := widgets ++ [(Separator.new .unrelated).widget_holder]
    match tagged_value with
    | .color color =>
      pure (LayoutGroup.mkRow (widgets ++
        [((((color_button.set_value (.solid color)).on_update
             (update_value (fun x : FillChoice => TaggedValue.color (x.as_solid.getD 0)) node_id
               index)).on_commit commit_value)).widget_holder]))
    | .optionalColor color =>
      pure (LayoutGroup.mkRow (widgets ++
        [((((color_button.set_value
              (match color with
               | some c => FillChoice.solid c
               | Option.none => FillChoice.none)).on_update
             (update_value (fun x : FillChoice => TaggedValue.optionalColor x.as_solid) node_id
               index)).on_commit commit_value)).widget_holder]))
    | .gradientStops x =>
      pure (LayoutGroup.mkRow (widgets ++
        [((((color_button.set_value (.gradientStops x)).on_update
             (update_value (fun x' : FillChoice => TaggedValue.gradientStops (x'.as_gradient.getD []))
               node_id index)).on_commit commit_value)).widget_holder]))
    | _ => pure (LayoutGroup.mkRow widgets)
  | _ => pure (LayoutGroup.mkRow widgets)

/-- `curves_widget`: parametric curve editor. -/
def curves_widget (document_node : DocumentNode) (node_id : NodeId) (index : ℕ)
    (name description : String) (blank_assist : Bool) : LayoutGroup :=
  let widgets := start_widgets document_node node_id index name description .general blank_assist
  match document_node.inputs.get? index with
  | Option.none => LayoutGroup.mkRow []
  | some input =>
    match input.as_non_exposed_value with
    | some (.curve curve) =>
      LayoutGroup.mkRow (widgets ++ [(Separator.new .unrelated).widget_holder,
        (((CurveInput.new curve).on_update
            (update_value (fun c : Curve => TaggedValue.curve c) node_id index)).on_commit
          commit_value).widget_holder])
    | _ => LayoutGroup.mkRow widgets

/-- `centroid_widget`: area/length radio row. -/
def centroid_widget (document_node : DocumentNode) (node_id : NodeId) (index : ℕ) :
    LayoutGroup :=
  let widgets := start_widgets document_node node_id index "Centroid Type" "TODO" .general true
  match document_node.inputs.get? index with
  | Option.none => LayoutGroup.mkRow []
  | some input =>
    match input.as_non_exposed_value with
    | some (.centroidType centroid_type) =>
      let entries := [
        ((((RadioEntryData.new "area").set_label "Area").set_tooltip
            "Center of mass for the interior area of the shape").on_update
          (update_value (fun _ : Unit => TaggedValue.centroidType CentroidType.area) node_id
            index)).on_commit commit_value,
        ((((RadioEntryData.new "length").set_label "Length").set_tooltip
            "Center of mass for the perimeter arc length of the shape").on_update
          (update_value (fun _ : Unit => TaggedValue.centroidType CentroidType.length) node_id
            index)).on_commit commit_value]
      LayoutGroup.mkRow (widgets ++ [(Separator.new .unrelated).widget_holder,
        ((RadioInput.new entries).set_selected_index
          (match centroid_type with
           | .area => some 0
           | .length => some 1)).widget_holder])
    | _ => LayoutGroup.mkRow widgets

/-- The tooltip text of the unsupported-type fallback row. -/
def unsupportedTypeTooltip (type_name : String) : String :=
  "This data can only be supplied through the node graph because no widget exists for its type:\n"
    ++ type_name

/-- The unsupported-type fallback of `property_from_type` (its final `_ =>` arm): a labelled
row carrying the type's display name in its tooltip, tagged `Err`. -/
def property_from_type_fallback (document_node : DocumentNode) (node_id : NodeId)
    (index : ℕ) (name description : String) (concrete_type : ConcreteType) :
    Panics (Except (List LayoutGroup) (List LayoutGroup)) :=
  let widgets := start_widgets document_node node_id index name description .general true
  let widgets := widgets ++ [(Separator.new .unrelated).widget_holder,
    ((TextLabel.new "-").set_tooltip (unsupportedTypeTooltip concrete_type.name)).widget_holder]
  pure (Except.error [widgetsIntoLayoutGroup widgets])

/-- The `TypeId`-identity stage of `property_from_type` (its `match concrete_type.id` arm
with guarded patterns, rendered as the equivalent if-chain). -/
def property_from_type_by_id (document_node : DocumentNode) (node_id : NodeId) (index : ℕ)
    (name description : String) (number_input : NumberInput) (fmin fmax : FNum → FNum)
    (concrete_type : ConcreteType) (x : TypeId) :
    Panics (Except (List LayoutGroup) (List LayoutGroup)) :=
  if x = TypeId.tBool then
    pure (Except.ok [widgetsIntoLayoutGroup (bool_widget document_node node_id
      index name description CheckboxInput.default true)])
  else if x = TypeId.tF64 then
    pure (Except.ok [widgetsIntoLayoutGroup (number_widget document_node node_id
      index name description
      ((number_input.set_min (fmin FNum.negInf)).set_max (fmax FNum.posInf)) true)])
  else if x = TypeId.tU32 then
    pure (Except.ok [widgetsIntoLayoutGroup (number_widget document_node node_id
      index name description
      (((number_input.int).set_min (fmin (.finite 0))).set_max
        (fmax (.finite 4294967295))) true)])
  else if x = TypeId.tU64 then
    pure (Except.ok [widgetsIntoLayoutGroup (number_widget document_node node_id
      index name description ((number_input.int).set_min (fmin (.finite 0))) true)])
  else if x = TypeId.tString then
    pure (Except.ok [widgetsIntoLayoutGroup (text_widget document_node node_id
      index name description true)])
  else if x = TypeId.tColor then do
    let w ← color_widget document_node node_id index name description
      (ColorInput.default.set_allow_none false) true
    pure (Except.ok [w])
  else if x = TypeId.tOptionColor then do
    let w ← color_widget document_node node_id index name description
      (ColorInput.default.set_allow_none true) true
    pure (Except.ok [w])
  else if x = TypeId.tDVec2 then
    pure (Except.ok [vec2_widget document_node node_id index name description "X"
      "Y" "" Option.none add_blank_assist])
  else if x = TypeId.tUVec2 then
    pure (Except.ok [vec2_widget document_node node_id index name description "X"
      "Y" "" (some 0) add_blank_assist])
  else if x = TypeId.tIVec2 then
    pure (Except.ok [vec2_widget document_node node_id index name description "X"
      "Y" "" Option.none add_blank_assist])
  else if x = TypeId.tVecF64 then
    pure (Except.ok [widgetsIntoLayoutGroup (vec_f64_input document_node node_id
      index name description TextInput.default true)])
  else if x = TypeId.tVecDVec2 then
    pure (Except.ok [widgetsIntoLayoutGroup (vec_dvec2_input document_node node_id
      index name description TextInput.default true)])
  else if x = TypeId.tFont then
    let fw := font_inputs document_node node_id index name description false
    pure (Except.ok [widgetsIntoLayoutGroup (fw.1 ++ fw.2.getD [])])
  else if x = TypeId.tCurve then
    pure (Except.ok [curves_widget document_node node_id index name description true])
  else if x = TypeId.tGradientStops then do
    let w ← color_widget document_node node_id index name description
      (ColorInput.default.set_allow_none false) true
    pure (Except.ok [w])
  else if x = TypeId.tVectorDataTable then
    pure (Except.ok [widgetsIntoLayoutGroup (vector_widget document_node node_id
      index name description true)])
  else if x = TypeId.tRasterFrame ∨ x = TypeId.tImageFrameTable ∨
      x = TypeId.tTextureFrameTable then
    pure (Except.ok [widgetsIntoLayoutGroup (raster_widget document_node node_id
      index name description true)])
  else if x = TypeId.tGraphicGroupTable then
    pure (Except.ok [widgetsIntoLayoutGroup (group_widget document_node node_id
      index name description true)])
  else if x = TypeId.tFootprint then
    let widgets := footprint_widget document_node node_id index
    match widgets.getLast? with
    | Option.none => Except.error "Footprint widget should return multiple rows"
    | some last => pure (Except.ok (widgets.dropLast ++ [last]))
  else if x = TypeId.tBlendMode then
    pure (Except.ok [blend_mode document_node node_id index name description true])
  else if x = TypeId.tRealTimeMode then
    pure (Except.ok [real_time_mode document_node node_id index name description true])
  else if x = TypeId.tRedGreenBlue then
    pure (Except.ok [color_channel document_node node_id index name description true])
  else if x = TypeId.tRedGreenBlueAlpha then
    pure (Except.ok [rgba_channel document_node node_id index name description true])
  else if x = TypeId.tXY then
    pure (Except.ok [xy_components document_node node_id index name description true])
  else if x = TypeId.tNoiseType then
    pure (Except.ok [noise_type document_node node_id index name description true])
  else if x = TypeId.tFractalType then
    pure (Except.ok [fractal_type document_node node_id index name description true false])
  else if x = TypeId.tCellularDistanceFunction then
    pure (Except.ok [cellular_distance_function document_node node_id index name
      description true false])
  else if x = TypeId.tCellularReturnType then
    pure (Except.ok [cellular_return_type document_node node_id index name
      description true false])
  else if x = TypeId.tDomainWarpType then
    pure (Except.ok [domain_warp_type document_node node_id index name description
      true false])
  else if x = TypeId.tRelativeAbsolute then
    pure (Except.ok [widgetsIntoLayoutGroup
      [(DropdownInput.new [[(((MenuListEntry.new "Relative").set_label
          "Relative").on_update (update_value
          (fun _ : Unit => TaggedValue.relativeAbsolute .relative) node_id index)),
        (((MenuListEntry.new "Absolute").set_label "Absolute").on_update
          (update_value (fun _ : Unit => TaggedValue.relativeAbsolute .absolute)
            node_id index))]]).widget_holder]])
  else if x = TypeId.tGridType then
    pure (Except.ok [grid_type_widget document_node node_id index name description true])
  else if x = TypeId.tLineCap then
    pure (Except.ok [line_cap_widget document_node node_id index name description true])
  else if x = TypeId.tLineJoin then
    pure (Except.ok [line_join_widget document_node node_id index name description true])
  else if x = TypeId.tArcType then
    pure (Except.ok [arc_type_widget document_node node_id index name description true])
  else if x = TypeId.tFillType then
    pure (Except.ok [widgetsIntoLayoutGroup
      [(DropdownInput.new [[(((MenuListEntry.new "Solid").set_label
          "Solid").on_update (update_value
          (fun _ : Unit => TaggedValue.fillType .solid) node_id index)),
        (((MenuListEntry.new "Gradient").set_label "Gradient").on_update
          (update_value (fun _ : Unit => TaggedValue.fillType .gradient) node_id
            index))]]).widget_holder]])
  else if x = TypeId.tGradientType then
    pure (Except.ok [widgetsIntoLayoutGroup
      [(DropdownInput.new [[(((MenuListEntry.new "Linear").set_label
          "Linear").on_update (update_value
          (fun _ : Unit => TaggedValue.gradientType .linear) node_id index)),
        (((MenuListEntry.new "Radial").set_label "Radial").on_update
          (update_value (fun _ : Unit => TaggedValue.gradientType .radial) node_id
            index))]]).widget_holder]])
  else if x = TypeId.tBooleanOperation then
    pure (Except.ok [boolean_operation_radio_buttons document_node node_id index
      name description true])
  else if x = TypeId.tCentroidType then
    pure (Except.ok [centroid_widget document_node node_id index])
  else if x = TypeId.tLuminanceCalculation then
    pure (Except.ok [luminance_calculation document_node node_id index name
      description true])
  else property_from_type_fallback document_node node_id index name description concrete_type

/-- The concrete-type stage of `property_from_type`: semantic alias matching takes
precedence (rendered as the equivalent if-chain over the alias string), then `TypeId`
identity, then the unsupported fallback. -/
def property_from_type_concrete (document_node : DocumentNode) (node_id : NodeId)
    (index : ℕ) (name description : String) (number_input : NumberInput)
    (fmin fmax : FNum → FNum) (concrete_type : ConcreteType) :
    Panics (Except (List LayoutGroup) (List LayoutGroup)) :=
  if concrete_type.alias' = some "Percentage" then
    pure (Except.ok [widgetsIntoLayoutGroup (number_widget document_node node_id index
      name description
      (((number_input.percentage).set_min (fmin (.finite 0))).set_max
        (fmax (.finite 100))) true)])
  else if concrete_type.alias' = some "SignedPercentage" then
    pure (Except.ok [widgetsIntoLayoutGroup (number_widget document_node node_id index
      name description
      (((number_input.percentage).set_min (fmin (.finite (-100)))).set_max
        (fmax (.finite 100))) true)])
  else if concrete_type.alias' = some "Angle" then
    pure (Except.ok [widgetsIntoLayoutGroup (number_widget document_node node_id index
      name description
      ((((number_input.mode_range).set_min (fmin (.finite (-180)))).set_max
        (fmax (.finite 180))).set_unit "°") true)])
  else if concrete_type.alias' = some "PixelLength" then
    pure (Except.ok [widgetsIntoLayoutGroup (number_widget document_node node_id index
      name description ((number_input.set_min (fmin (.finite 0))).set_unit " px") true)])
  else if concrete_type.alias' = some "Length" then
    pure (Except.ok [widgetsIntoLayoutGroup (number_widget document_node node_id index
      name description (number_input.set_min (fmin (.finite 0))) true)])
  else if concrete_type.alias' = some "Fraction" then
    pure (Except.ok [widgetsIntoLayoutGroup (number_widget document_node node_id index
      name description
      (((number_input.mode_range).set_min (fmin (.finite 0))).set_max
        (fmax (.finite 1))) true)])
  else if concrete_type.alias' = some "IntegerCount" then
    pure (Except.ok [widgetsIntoLayoutGroup (number_widget document_node node_id index
      name description ((number_input.int).set_min (fmin (.finite 1))) true)])
  else if concrete_type.alias' = some "SeedValue" then
    pure (Except.ok [widgetsIntoLayoutGroup (number_widget document_node node_id index
      name description ((number_input.int).set_min (fmin (.finite 0))) true)])
  else if concrete_type.alias' = some "Resolution" then
    pure (Except.ok [vec2_widget document_node node_id index name description "W" "H"
      " px" (some 64) add_blank_assist])
  else
    match concrete_type.id with
    | Option.none =>
      property_from_type_fallback document_node node_id index name description concrete_type
    | some x =>
      property_from_type_by_id document_node node_id index name description number_input
        fmin fmax concrete_type x

/-- `property_from_type`: the widget catalog dispatcher.  Returns `Except.ok rows` when a
widget exists for the type, `Except.error rows` (still displayable) otherwise; the outer
`Panics` layer records the reachable panics (the `Footprint` `.expect` and the direct
indexing inside `color_widget`).  The matching pipeline is staged into named functions:
context lookups and wrapper unwrapping here, then `property_from_type_concrete`
(alias → type identity → fallback). -/
def property_from_type (node_id : NodeId) (index : ℕ) (ty : Ty)
    (number_options : NumberOptions) (context : NodePropertiesContext) :
    Panics (Except (List LayoutGroup) (List LayoutGroup)) :=
  match context.input_name node_id index with
  | Option.none => pure (Except.error [])
  | some name =>
    match context.input_description node_id index with
    | Option.none => pure (Except.error [])
    | some description =>
      match context.nested_network with
      | Option.none => pure (Except.error [])
      | some network =>
        match network.nodes node_id with
        | Option.none => pure (Except.error [])
        | some document_node =>
          let range := number_options.2.2
          let minMaxInput : Option ℚ × Option ℚ × NumberInput :=
            match range with
            | some (range_start, range_end) =>
              (some range_start, some range_end,
                ((NumberInput.default.mode_range).set_min (.finite range_start)).set_max
                  (.finite range_end))
            | Option.none => (number_options.1, number_options.2.1, NumberInput.default)
          let number_min := minMaxInput.1
          let number_max := minMaxInput.2.1
          let number_input := minMaxInput.2.2
          let fmin := fun (x : FNum) => (number_min.map FNum.finite).getD x
          let fmax := fun (x : FNum) => (number_max.map FNum.finite).getD x
          match ty with
          | .generic _ =>
            pure (Except.ok [LayoutGroup.mkRow
              [(TextLabel.new "Generic type (not supported)").widget_holder]])
          | .fn _ out => property_from_type node_id index out number_options context
          | .future out => property_from_type node_id index out number_options context
          | .concrete concrete_type =>
            property_from_type_concrete document_node node_id index name description
              number_input fmin fmax concrete_type

/-- `get_document_node`: node lookup through the nested network (an ordinary `Result`). -/
def get_document_node (node_id : NodeId) (context : NodePropertiesContext) :
    Except String DocumentNode :=
  match context.nested_network with
  | Option.none => Except.error "network not found in get_document_node"
  | some network =>
    match network.nodes node_id with
    | Option.none => Except.error "node not found in get_document_node"
    | some document_node => Except.ok document_node

/-- The local `from_string` closure of the individual corner-radius text input: parse like a
float list, then coerce into a 4-element array (defaulting to zeroes when the length is not
exactly 4, as `try_into().unwrap_or_default()` does). -/
def rectangle_corner_radius_from_string (string : String) : Option TaggedValue :=
  (((stringSplit string (fun c => c == ',' || c == ' ')).filter (fun x => !x.isEmpty)).mapM
    parseF64).map (fun v => TaggedValue.f64Array4
      (match v with
       | [a, b, c, d] => (a, b, c, d)
       | _ => (0, 0, 0, 0)))

/-- Serialization of the 4-element corner-radius array into its text form. -/
def serializeF64Array4 (a : ℚ × ℚ × ℚ × ℚ) : String :=
  String.intercalate ", "
    [f64_to_string a.1, f64_to_string a.2.1, f64_to_string a.2.2.1, f64_to_string a.2.2.2]

/-- `rectangle_properties`: the rectangle node panel, including the atomic uniform/individual
corner-radius mode switch. -/
def rectangle_properties (node_id : NodeId) (context : NodePropertiesContext) :
    List LayoutGroup :=
  match get_document_node node_id context with
  | Except.error _ => []
  | Except.ok document_node =>
    let size_x_index := 1
    let size_y_index := 2
    let corner_rounding_type_index := 3
    let corner_radius_index := 4
    let clamped_index := 5
    let size_x := number_widget document_node node_id size_x_index "Size X" "TODO"
      NumberInput.default true
    let size_y := number_widget document_node node_id size_y_index "Size Y" "TODO"
      NumberInput.default true
    let corner_radius_row_1 := start_widgets document_node node_id corner_radius_index
      "Corner Radius" "TODO" .number true
    let corner_radius_row_1 := corner_radius_row_1 ++ [(Separator.new .unrelated).widget_holder]
    let corner_radius_row_2 := [(Separator.new .unrelated).widget_holder]
    let corner_radius_row_2 := corner_radius_row_2 ++ [(TextLabel.new "").widget_holder]
    let corner_radius_row_2 := add_blank_assist corner_radius_row_2
    match document_node.inputs.get? corner_rounding_type_index with
    | Option.none => []
    | some input =>
      let clamped := bool_widget document_node node_id clamped_index "Clamped" "TODO"
        CheckboxInput.default true
      match input.as_non_exposed_value with
      | some (.bool is_individual) =>
        match document_node.inputs.get? corner_radius_index with
        | Option.none => []
        | some radius_input =>
          let uniform_val : ℚ :=
            match radius_input.as_non_exposed_value with
            | some (.f64 x) => x
            | some (.f64Array4 x) => x.1
            | _ => 0
          let individual_val : ℚ × ℚ × ℚ × ℚ :=
            match radius_input.as_non_exposed_value with
            | some (.f64Array4 x) => x
            | some (.f64 x) => (x, x, x, x)
            | _ => (0, 0, 0, 0)
          let uniform := ((((RadioEntryData.new "Uniform").set_label "Uniform").on_update
            (fun _ : Unit => Message.batched
              [Message.nodeGraph (.setInputValue node_id corner_rounding_type_index
                (TaggedValue.bool false)),
               Message.nodeGraph (.setInputValue node_id corner_radius_index
                (TaggedValue.f64 uniform_val))])).on_commit commit_value)
          let individual := ((((RadioEntryData.new "Individual").set_label "Individual").on_update
            (fun _ : Unit => Message.batched
              [Message.nodeGraph (.setInputValue node_id corner_rounding_type_index
                (TaggedValue.bool true)),
               Message.nodeGraph (.setInputValue node_id corner_radius_index
                (TaggedValue.f64Array4 individual_val))])).on_commit commit_value)
          let radio_input := ((RadioInput.new [uniform, individual]).set_selected_index
            (some (if is_individual then 1 else 0))).widget_holder
          let corner_radius_row_1 := corner_radius_row_1 ++ [radio_input]
          let input_widget :=
            if is_individual then
              ((TextInput.default.set_value (serializeF64Array4 individual_val)).on_update
                (optionally_update_value
                  (fun s : String => rectangle_corner_radius_from_string s) node_id
                  corner_radius_index)).widget_holder
            else
              ((((NumberInput.default.set_value (some uniform_val)).on_update
                (update_value (fun v : Option ℚ => TaggedValue.f64 (f64unwrap v)) node_id
                  corner_radius_index)).on_commit commit_value)).widget_holder
          let corner_radius_row_2 := corner_radius_row_2 ++ [input_widget]
          [LayoutGroup.mkRow size_x, LayoutGroup.mkRow size_y,
           LayoutGroup.mkRow corner_radius_row_1, LayoutGroup.mkRow corner_radius_row_2,
           LayoutGroup.mkRow clamped]
      | _ =>
        [LayoutGroup.mkRow size_x, LayoutGroup.mkRow size_y,
         LayoutGroup.mkRow corner_radius_row_1, LayoutGroup.mkRow corner_radius_row_2,
         LayoutGroup.mkRow clamped]

/-- The machine epsilon of `f64`. -/
def f64EPSILON : ℚ := 1 / 4503599627370496

/-- `fill_properties`: the fill node panel — swatch (batched backup + active write on edit),
solid/gradient mode switch, and a gradient-type row.  The three sibling slots are read with
direct indexing in the source, hence the `Panics` layer. -/
def fill_properties (node_id : NodeId) (context : NodePropertiesContext) :
    Panics (List LayoutGroup) :=
  match get_document_node node_id context with
  | Except.error _ => pure []
  | Except.ok document_node => do
    let fill_index := 1
    let backup_color_index := 2
    let backup_gradient_index := 3
    let widgets_first_row := start_widgets document_node node_id fill_index "Fill" "TODO"
      .general true
    let fill_input ← indexPanic document_node.inputs fill_index
    let backup_color_input ← indexPanic document_node.inputs backup_color_index
    let backup_gradient_input ← indexPanic document_node.inputs backup_gradient_index
    match fill_input.as_value, backup_color_input.as_value, backup_gradient_input.as_value with
    | some (.fill fill), some (.optionalColor backup_color),
        some (.gradient backup_gradient) =>
      let fill2 := fill
      let backup_color_fill := fillOfOptionalColor backup_color
      let backup_gradient_fill := fillOfGradient backup_gradient
      let widgets_first_row := widgets_first_row ++
        [(Separator.new .unrelated).widget_holder,
         ((((ColorInput.default.set_value (FillChoice.ofFill fill)).on_update
             (fun x : FillChoice => Message.batched
               [(match fill2 with
                 | Fill.none => Message.nodeGraph (.setInputValue node_id backup_color_index
                     (TaggedValue.optionalColor Option.none))
                 | Fill.solid color => Message.nodeGraph (.setInputValue node_id
                     backup_color_index (TaggedValue.optionalColor (some color)))
                 | Fill.gradient gradient => Message.nodeGraph (.setInputValue node_id
                     backup_gradient_index (TaggedValue.gradient gradient))),
                Message.nodeGraph (.setInputValue node_id fill_index
                  (TaggedValue.fill (x.to_fill fill2.as_gradient)))])).on_commit
           commit_value)).widget_holder]
      let widgets := [LayoutGroup.mkRow widgets_first_row]
      let fill_type_switch :=
        let row := [(TextLabel.new "").widget_holder]
        let row :=
          match fill with
          | Fill.solid _ => add_blank_assist row
          | Fill.none => add_blank_assist row
          | Fill.gradient gradient =>
            let reverse_button := (((IconButton.new "Reverse" 24).set_tooltip
              "Reverse the gradient color stops").on_update
              (update_value (fun _ : Unit => TaggedValue.fill
                (Fill.gradient { gradient with stops := gradient.stops.reversed })) node_id
                fill_index)).widget_holder
            row ++ [(Separator.new .unrelated).widget_holder, reverse_button]
        let entries := [
          (((RadioEntryData.new "solid").set_label "Solid").on_update
            (update_value (fun _ : Unit => TaggedValue.fill backup_color_fill) node_id
              fill_index)).on_commit commit_value,
          (((RadioEntryData.new "gradient").set_label "Gradient").on_update
            (update_value (fun _ : Unit => TaggedValue.fill backup_gradient_fill) node_id
              fill_index)).on_commit commit_value]
        let row := row ++ [(Separator.new .unrelated).widget_holder,
          ((RadioInput.new entries).set_selected_index
            (some (if fill.as_gradient.isSome then 1 else 0))).widget_holder]
        LayoutGroup.mkRow row
      let widgets := widgets ++ [fill_type_switch]
      match fill with
      | Fill.gradient gradient =>
        let row := [(TextLabel.new "").widget_holder]
        let row :=
          match gradient.gradient_type with
          | GradientType.linear => add_blank_assist row
          | GradientType.radial =>
            let orientation :=
              if |gradient.end'.1 - gradient.start.1| > f64EPSILON * 1000000 then
                gradient.end'.1 > gradient.start.1
              else
                (gradient.start.1 + gradient.start.2) < (gradient.end'.1 + gradient.end'.2)
            let reverse_radial_gradient_button := (((IconButton.new
              (if orientation then "ReverseRadialGradientToRight"
               else "ReverseRadialGradientToLeft") 24).set_tooltip
              "Reverse which end the gradient radiates from").on_update
              (update_value (fun _ : Unit => TaggedValue.fill
                (Fill.gradient { gradient with start := gradient.end', end' := gradient.start }))
                node_id fill_index)).widget_holder
            row ++ [(Separator.new .unrelated).widget_holder, reverse_radial_gradient_button]
        let new_gradient1 := gradient
        let new_gradient2 := gradient
        let entries := [
          (((RadioEntryData.new "linear").set_label "Linear").on_update
            (update_value (fun _ : Unit => TaggedValue.fill
              (Fill.gradient { new_gradient1 with gradient_type := .linear })) node_id
              fill_index)).on_commit commit_value,
          (((RadioEntryData.new "radial").set_label "Radial").on_update
            (update_value (fun _ : Unit => TaggedValue.fill
              (Fill.gradient { new_gradient2 with gradient_type := .radial })) node_id
              fill_index)).on_commit commit_value]
        let row := row ++ [(Separator.new .unrelated).widget_holder,
          ((RadioInput.new entries).set_selected_index
            (some gradient.gradient_type.toIndex)).widget_holder]
        pure (widgets ++ [LayoutGroup.mkRow row])
      | _ => pure widgets
    | _, _, _ => pure [LayoutGroup.mkRow widgets_first_row]

/-- `stroke_properties`: the stroke node panel.  The dash-lengths and line-join slots are
read with direct indexing in the source, hence the `Panics` layer. -/
def stroke_properties (node_id : NodeId) (context : NodePropertiesContext) :
    Panics (List LayoutGroup) :=
  match get_document_node node_id context with
  | Except.error _ => pure []
  | Except.ok document_node => do
    let color_index := 1
    let weight_index := 2
    let dash_lengths_index := 3
    let dash_offset_index := 4
    let line_cap_index := 5
    let line_join_index := 6
    let miter_limit_index := 7
    let color ← color_widget document_node node_id color_index "Color" "TODO"
      ColorInput.default true
    let weight := number_widget document_node node_id weight_index "Weight" "TODO"
      ((NumberInput.default.set_unit " px").set_min (.finite 0)) true
    let dash_lengths_input ← indexPanic document_node.inputs dash_lengths_index
    let dash_lengths_val :=
      match dash_lengths_input.as_value with
      | some (.vecF64 x) => x
      | _ => []
    let dash_lengths := vec_f64_input document_node node_id dash_lengths_index "Dash Lengths"
      "TODO" (TextInput.default.set_centered true) true
    let number_input := (NumberInput.default.set_unit " px").set_disabled
      dash_lengths_val.isEmpty
    let dash_offset := number_widget document_node node_id dash_offset_index "Dash Offset"
      "TODO" number_input true
    let line_cap := line_cap_widget document_node node_id line_cap_index "Line Cap" "TODO" true
    let line_join := line_join_widget document_node node_id line_join_index "Line Join" "TODO"
      true
    let line_join_input ← indexPanic document_node.inputs line_join_index
    let line_join_val :=
      match line_join_input.as_value with
      | some (.lineJoin x) => x
      | _ => LineJoin.miter
    let number_input := (NumberInput.default.set_min (.finite 0)).set_disabled
      (line_join_val != LineJoin.miter)
    let miter_limit := number_widget document_node node_id miter_limit_index "Miter Limit"
      "TODO" number_input true
    pure [color, LayoutGroup.mkRow weight, LayoutGroup.mkRow dash_lengths,
      LayoutGroup.mkRow dash_offset, line_cap, line_join, LayoutGroup.mkRow miter_limit]

/-- `unwrap_or_else(|value| value)` on the dispatch result: the `Err` rows are rendered too. -/
def unwrap_or_else_rows (r : Except (List LayoutGroup) (List LayoutGroup)) :
    List LayoutGroup :=
  match r with
  | Except.ok v => v
  | Except.error v => v

/-- The candidate types offered at a slot index across all registered overload signatures
(`implementations.keys().filter_map(|item| item.inputs.get(input_index))`). -/
def candidate_input_types (implementations : List NodeIOTypes) (input_index : ℕ) : List Ty :=
  implementations.filterMap (fun item => item.inputs.get? input_index)

/-- The candidate filter of `generate_node_properties`:
`property_from_type(..).is_ok()`. -/
def dispatch_succeeds (node_id : NodeId) (input_index : ℕ) (number_options : NumberOptions)
    (context : NodePropertiesContext) (ty : Ty) : Panics Bool := do
  let r ← property_from_type node_id input_index ty number_options context
  pure (match r with
    | Except.ok _ => true
    | Except.error _ => false)

/-- Left-to-right filtering in the `Panics` monad (Rust's `.filter(..)` while the predicate
may panic). -/
def filterPanics {α : Type} (p : α → Panics Bool) : List α → Panics (List α)
  | [] => pure []
  | x :: xs => do
    let b ← p x
    let rest ← filterPanics p xs
    pure (if b then x :: rest else rest)

/-- Byte-lexicographic comparison of character lists (Rust's `Ord` on `String`, which drives
`sort_by_key`); structural so that it evaluates by kernel reduction. -/
def lexLe : List Char → List Char → Bool
  | [], _ => true
  | _ :: _, [] => false
  | c :: cs, d :: ds => if c = d then lexLe cs ds else decide (c < d)

/-- Modelled from the spec: the lexicographic string order used for the candidate tie-break. -/
def stringLe (a b : String) : Bool := lexLe a.data b.data

/-- Stable insertion into a list sorted by `type_name`. -/
def insertByTypeName (ty : Ty) : List Ty → List Ty
  | [] => [ty]
  | y :: ys =>
    if stringLe ty.type_name y.type_name then ty :: y :: ys else y :: insertByTypeName ty ys

/-- Stable sort by `type_name` (`input_types.sort_by_key(|ty| ty.type_name())`). -/
def sort_by_type_name (l : List Ty) : List Ty := l.foldr insertByTypeName []

/-- The per-input row construction of `generate_node_properties` (the body of its
`for input_index in 1..number_of_inputs` loop): widget override, else resolve the input type
(metadata default type, or the filtered-then-sorted candidate of a polymorphic proto node,
or the network-reported type) and dispatch on it. -/
def generate_node_properties_input_row (context : NodePropertiesContext) (node_id : NodeId)
    (input_index : ℕ) : Panics (List LayoutGroup) :=
  match context.call_widget_override node_id input_index with
  | some row => pure row
  | Option.none =>
    match context.implementation node_id with
    | Option.none => pure []
    | some implementation =>
      match implementation with
      | .protoNode proto_node_identifier =>
        let fieldInfo := (context.node_metadata proto_node_identifier).bind
          (fun metadata => metadata.fields.get? input_index)
        let number_options : NumberOptions :=
          match fieldInfo with
          | some field => (field.number_min, field.number_max, field.number_mode_range)
          | Option.none => (Option.none, Option.none, Option.none)
        match fieldInfo.bind (fun field => field.default_type) with
        | some default => do
          let r ← property_from_type node_id input_index default number_options context
          pure (unwrap_or_else_rows r)
        | Option.none =>
          match context.node_registry proto_node_identifier with
          | Option.none => pure []
          | some implementations => do
            let input_types ← filterPanics
              (dispatch_succeeds node_id input_index number_options context)
              (candidate_input_types implementations input_index)
            let input_types := sort_by_type_name input_types
            match input_types.head? with
            | Option.none => pure []
            | some input_type => do
              let r ← property_from_type node_id input_index input_type number_options context
              pure (unwrap_or_else_rows r)
      | .network => do
        let input_type := context.input_type node_id input_index
        let r ← property_from_type node_id input_index input_type
          (Option.none, Option.none, Option.none) context
        pure (unwrap_or_else_rows r)

-- Order properties of the lexicographic comparison and of the candidate sort.

theorem lexLe_refl (a : List Char) : lexLe a a = true := by
  induction a with
  | nil => rfl
  | cons c cs ih => simp [lexLe, ih]

theorem lexLe_total (a b : List Char) : lexLe a b = true ∨ lexLe b a = true := by
  induction a generalizing b with
  | nil => exact Or.inl rfl
  | cons c cs ih =>
    cases b with
    | nil => exact Or.inr rfl
    | cons d ds =>
      by_cases h : c = d
      · subst h
        rcases ih ds with h' | h'
        · exact Or.inl (by simp [lexLe, h'])
        · exact Or.inr (by simp [lexLe, h'])
      · rcases lt_or_gt_of_ne h with hlt | hgt
        · exact Or.inl (by simp [lexLe, h, hlt])
        · exact Or.inr (by simp [lexLe, Ne.symm h, hgt])

theorem lexLe_trans {a b c : List Char} (h1 : lexLe a b = true) (h2 : lexLe b c = true) :
    lexLe a c = true := by
  induction a generalizing b c with
  | nil => rfl
  | cons x xs ih =>
    cases b with
    | nil => simp [lexLe] at h1
    | cons y ys =>
      cases c with
      | nil => simp [lexLe] at h2
      | cons z zs =>
        by_cases hxy : x = y
        · subst hxy
          by_cases hxz : x = z
          · subst hxz
            simp only [lexLe, if_pos rfl] at h1 h2 ⊢
            exact ih h1 h2
          · simp only [lexLe, if_pos rfl] at h1
            simp only [lexLe, if_neg hxz] at h2 ⊢
            exact h2
        · simp only [lexLe, if_neg hxy] at h1
          have hlt1 : x < y := of_decide_eq_true h1
          by_cases hyz : y = z
          · have hxz : x ≠ z := fun h' => hxy (h'.trans hyz.symm)
            simp only [lexLe, if_neg hxz]
            exact decide_eq_true (hyz ▸ hlt1)
          · simp only [lexLe, if_neg hyz] at h2
            have hlt2 : y < z := of_decide_eq_true h2
            have hxz : x ≠ z := ne_of_lt (lt_trans hlt1 hlt2)
            simp only [lexLe, if_neg hxz]
            exact decide_eq_true (lt_trans hlt1 hlt2)

theorem mem_insertByTypeName {x ty : Ty} {l : List Ty} :
    x ∈ insertByTypeName ty l ↔ x = ty ∨ x ∈ l := by
  induction l with
  | nil => simp [insertByTypeName]
  | cons y ys ih =>
    by_cases h : stringLe ty.type_name y.type_name
    · simp only [insertByTypeName, if_pos h, List.mem_cons]
    · simp only [insertByTypeName, if_neg h, List.mem_cons, ih]
      tauto

theorem pairwise_key_insertByTypeName {ty : Ty} {l : List Ty}
    (h : l.Pairwise (fun a b => stringLe a.type_name b.type_name = true)) :
    (insertByTypeName ty l).Pairwise
      (fun a b => stringLe a.type_name b.type_name = true) := by
  induction l with
  | nil => simp [insertByTypeName]
  | cons y ys ih =>
    rw [List.pairwise_cons] at h
    by_cases hc : stringLe ty.type_name y.type_name
    · rw [insertByTypeName, if_pos hc]
      refine List.Pairwise.cons ?_ (List.Pairwise.cons h.1 h.2)
      intro z hz
      rcases List.mem_cons.mp hz with rfl | hz'
      · exact hc
      · exact lexLe_trans hc (h.1 z hz')
    · rw [insertByTypeName, if_neg hc]
      refine List.Pairwise.cons ?_ (ih h.2)
      intro z hz
      rcases mem_insertByTypeName.mp hz with heq | hz'
      · rw [heq]
        rcases lexLe_total (Ty.type_name ty).data (Ty.type_name y).data with ht | ht
        · exact absurd ht hc
        · exact ht
      · exact h.1 z hz'

theorem pairwise_sort_by_type_name (l : List Ty) :
    (sort_by_type_name l).Pairwise
      (fun a b => stringLe a.type_name b.type_name = true) := by
  induction l with
  | nil => simp [sort_by_type_name]
  | cons y ys ih => exact pairwise_key_insertByTypeName ih

theorem mem_sort_by_type_name {x : Ty} {l : List Ty} :
    x ∈ sort_by_type_name l ↔ x ∈ l := by
  induction l with
  | nil => simp [sort_by_type_name]
  | cons y ys ih =>
    show x ∈ insertByTypeName y (sort_by_type_name ys) ↔ _
    rw [mem_insertByTypeName, ih, List.mem_cons]

theorem sort_by_type_name_head_min {l : List Ty} {ty : Ty}
    (h : (sort_by_type_name l).head? = some ty) :
    ty ∈ l ∧ ∀ ty' ∈ l, stringLe ty.type_name ty'.type_name = true := by
  match hs : sort_by_type_name l with
  | [] => rw [hs] at h; cases h
  | a :: rest =>
    rw [hs] at h
    injection h with h
    subst h
    have hp := pairwise_sort_by_type_name l
    rw [hs, List.pairwise_cons] at hp
    constructor
    · exact mem_sort_by_type_name.mp (hs ▸ List.mem_cons_self _ _)
    · intro ty' hty'
      have hm : ty' ∈ sort_by_type_name l := mem_sort_by_type_name.mpr hty'
      rw [hs] at hm
      rcases List.mem_cons.mp hm with rfl | h'
      · exact lexLe_refl _
      · exact hp.1 ty' h'

/-- Decidable equality for `Except` results over decidable components. -/
instance exceptDecidableEq {ε α : Type} [DecidableEq ε] [DecidableEq α] :
    DecidableEq (Except ε α) := fun a b =>
  match a, b with
  | .error e, .error f =>
    if h : e = f then isTrue (by rw [h]) else isFalse (fun hc => h (Except.error.inj hc))
  | .error _, .ok _ => isFalse (fun hc => Except.noConfusion hc)
  | .ok _, .error _ => isFalse (fun hc => Except.noConfusion hc)
  | .ok v, .ok w =>
    if h : v = w then isTrue (by rw [h]) else isFalse (fun hc => h (Except.ok.inj hc))

theorem filterPanics_ok_sub {α : Type} {p : α → Panics Bool} {l res : List α}
    (h : filterPanics p l = Except.ok res) : ∀ x ∈ res, x ∈ l := by
  induction l generalizing res with
  | nil =>
    rw [filterPanics] at h
    injection h with h
    subst h
    intro x hx
    cases hx
  | cons a as ih =>
    rw [filterPanics] at h
    cases hpa : p a with
    | error e => rw [hpa] at h; simp [Bind.bind, Except.bind] at h
    | ok b =>
      rw [hpa] at h
      cases hrest : filterPanics p as with
      | error e => rw [hrest] at h; simp [Bind.bind, Except.bind] at h
      | ok rest =>
        rw [hrest] at h
        simp only [Bind.bind, Except.bind, pure, Except.pure] at h
        injection h with h
        subst h
        intro x hx
        cases b with
        | true =>
          rcases List.mem_cons.mp hx with rfl | hx'
          · exact List.mem_cons_self _ _
          · exact List.mem_cons_of_mem _ (ih hrest x hx')
        | false => exact List.mem_cons_of_mem _ (ih hrest x hx)

theorem filterPanics_ok_iff {α : Type} {p : α → Panics Bool} {l res : List α}
    (h : filterPanics p l = Except.ok res) :
    ∀ x ∈ l, (x ∈ res ↔ p x = Except.ok true) := by
  induction l generalizing res with
  | nil => intro x hx; cases hx
  | cons a as ih =>
    rw [filterPanics] at h
    cases hpa : p a with
    | error e => rw [hpa] at h; simp [Bind.bind, Except.bind] at h
    | ok b =>
      rw [hpa] at h
      cases hrest : filterPanics p as with
      | error e => rw [hrest] at h; simp [Bind.bind, Except.bind] at h
      | ok rest =>
        rw [hrest] at h
        simp only [Bind.bind, Except.bind, pure, Except.pure] at h
        injection h with h
        subst h
        intro x hx
        cases b with
        | true =>
          show x ∈ a :: rest ↔ p x = Except.ok true
          constructor
          · intro hmem
            rcases List.mem_cons.mp hmem with rfl | hm'
            · exact hpa
            · exact (ih hrest x (filterPanics_ok_sub hrest x hm')).mp hm'
          · intro hpx
            rcases List.mem_cons.mp hx with rfl | hx'
            · exact List.mem_cons_self _ _
            · exact List.mem_cons_of_mem _ ((ih hrest x hx').mpr hpx)
        | false =>
          show x ∈ rest ↔ p x = Except.ok true
          constructor
          · intro hmem
            exact (ih hrest x (filterPanics_ok_sub hrest x hmem)).mp hmem
          · intro hpx
            rcases List.mem_cons.mp hx with rfl | hx'
            · rw [hpa] at hpx
              injection hpx with hpx
              cases hpx
            · exact (ih hrest x hx').mpr hpx

/-- C1: for a polymorphic slot (proto node with registered overloads, no widget override and
no metadata default type), candidate resolution first filters the candidate types offered at
the slot index to those for which catalog dispatch returns `Ok`, then selects the candidate
whose type name is lexicographically smallest among the survivors, and the produced row is
the dispatch result at that candidate. -/
theorem C1_polymorphic_candidate_resolution
    (context : NodePropertiesContext) (node_id : NodeId) (input_index : ℕ)
    (ident : String) (implementations : List NodeIOTypes)
    (number_options : NumberOptions) (filtered : List Ty) (ty : Ty)
    (hov : context.call_widget_override node_id input_index = Option.none)
    (himpl : context.implementation node_id = some (.protoNode ident))
    (hdef : ((context.node_metadata ident).bind
      (fun metadata => metadata.fields.get? input_index)).bind
        (fun field => field.default_type) = Option.none)
    (hno : number_options = (match (context.node_metadata ident).bind
      (fun metadata => metadata.fields.get? input_index) with
      | some field => (field.number_min, field.number_max, field.number_mode_range)
      | Option.none => (Option.none, Option.none, Option.none)))
    (hreg : context.node_registry ident = some implementations)
    (hfil : filterPanics (dispatch_succeeds node_id input_index number_options context)
      (candidate_input_types implementations input_index) = Except.ok filtered)
    (hhead : (sort_by_type_name filtered).head? = some ty) :
    (∀ x ∈ candidate_input_types implementations input_index,
      (x ∈ filtered ↔ dispatch_succeeds node_id input_index number_options context x
        = Except.ok true))
    ∧ ty ∈ filtered
    ∧ (∀ ty' ∈ filtered, stringLe ty.type_name ty'.type_name = true)
    ∧ generate_node_properties_input_row context node_id input_index
        = (property_from_type node_id input_index ty number_options context).map
          unwrap_or_else_rows := by
  refine ⟨filterPanics_ok_iff hfil, (sort_by_type_name_head_min hhead).1,
    (sort_by_type_name_head_min hhead).2, ?_⟩
  rw [generate_node_properties_input_row, hov, himpl]
  dsimp only
  rw [hdef]
  dsimp only
  rw [hreg]
  dsimp only
  rw [← hno]
  rw [hfil]
  dsimp only [Bind.bind, Except.bind]
  rw [hhead]
  cases hp : property_from_type node_id input_index ty number_options context with
  | error e => simp [hp, Bind.bind, Except.bind, Except.map]
  | ok v => simp [hp, Bind.bind, Except.bind, Except.map, pure, Except.pure]

-- Concrete scenario for C1/C9/C10: a proto node with three overloads offering, at slot 1,
-- a non-renderable type A (no catalog entry) and two renderable f64-backed types C and B.

def tyC1A : Ty := .concrete ⟨"A", Option.none, some (TypeId.other 0)⟩

def tyC1B : Ty := .concrete ⟨"B", Option.none, some TypeId.tF64⟩

def tyC1C : Ty := .concrete ⟨"C", Option.none, some TypeId.tF64⟩

def dnC1 : DocumentNode :=
  ⟨[NodeInput.value (TaggedValue.bool false) false,
    NodeInput.value (TaggedValue.f64 (mkRat 3 1)) false]⟩

def implsC1 : List NodeIOTypes := [⟨[tyC1A, tyC1A]⟩, ⟨[tyC1A, tyC1C]⟩, ⟨[tyC1A, tyC1B]⟩]

def ctxC1 : NodePropertiesContext where
  input_name := fun _ _ => some "Value"
  input_description := fun _ _ => some "The input"
  nested_network := some ⟨fun n => if n = 7 then some dnC1 else Option.none⟩
  call_widget_override := fun _ _ => Option.none
  implementation := fun _ => some (.protoNode "TestNode")
  node_metadata := fun _ => Option.none
  node_registry := fun nm => if nm = "TestNode" then some implsC1 else Option.none
  input_type := fun _ _ => Ty.generic "T"

/-- C1 witness: with candidates `{A (no widget), C, B}` where B and C are renderable and
`"B" < "C"`, resolution keeps `[C, B]`, selects `B`, and dispatches the row at `B`. -/
theorem C1_polymorphic_candidate_resolution_witness :
    (∀ x ∈ candidate_input_types implsC1 1,
      (x ∈ [tyC1C, tyC1B] ↔ dispatch_succeeds 7 1 (Option.none, Option.none, Option.none)
        ctxC1 x = Except.ok true))
    ∧ tyC1B ∈ [tyC1C, tyC1B]
    ∧ (∀ ty' ∈ [tyC1C, tyC1B], stringLe tyC1B.type_name ty'.type_name = true)
    ∧ generate_node_properties_input_row ctxC1 7 1
        = (property_from_type 7 1 tyC1B (Option.none, Option.none, Option.none) ctxC1).map
          unwrap_or_else_rows :=
  C1_polymorphic_candidate_resolution ctxC1 7 1 "TestNode" implsC1
    (Option.none, Option.none, Option.none) [tyC1C, tyC1B] tyC1B rfl rfl rfl rfl rfl
    (by decide) (by decide)

/-- Whether an alias string is one the catalog dispatches on. -/
def aliasHasWidget (a : Option String) : Bool :=
  a == some "Percentage" || a == some "SignedPercentage" || a == some "Angle" ||
  a == some "PixelLength" || a == some "Length" || a == some "Fraction" ||
  a == some "IntegerCount" || a == some "SeedValue" || a == some "Resolution"

/-- The identity tokens the catalog has an entry for. -/
def catalogTypeIds : List TypeId :=
  [.tBool, .tF64, .tU32, .tU64, .tString, .tColor, .tOptionColor, .tDVec2, .tUVec2, .tIVec2,
   .tVecF64, .tVecDVec2, .tFont, .tCurve, .tGradientStops, .tVectorDataTable, .tRasterFrame,
   .tImageFrameTable, .tTextureFrameTable, .tGraphicGroupTable, .tFootprint, .tBlendMode,
   .tRealTimeMode, .tRedGreenBlue, .tRedGreenBlueAlpha, .tXY, .tNoiseType, .tFractalType,
   .tCellularDistanceFunction, .tCellularReturnType, .tDomainWarpType, .tRelativeAbsolute,
   .tGridType, .tLineCap, .tLineJoin, .tArcType, .tFillType, .tGradientType,
   .tBooleanOperation, .tCentroidType, .tLuminanceCalculation]

/-- Whether an identity token has a catalog entry. -/
def idInCatalog (i : Option TypeId) : Bool :=
  match i with
  | Option.none => false
  | some x => catalogTypeIds.contains x

/-- Substring containment on strings. -/
def containsStr (s t : String) : Prop := ∃ a b, s = a ++ t ++ b

/-- C10: for every concrete type matching no semantic alias and no catalog entry (given the
context lookups succeed), dispatch returns an `Err`-tagged result whose single row carries a
label with the type's display name inside its tooltip, and that `Err` discriminant makes the
candidate filter of polymorphic selection report `false` for the type. -/
theorem C10_unsupported_type_err_row
    (context : NodePropertiesContext) (node_id : NodeId) (input_index : ℕ)
    (name description : String) (network : Network) (document_node : DocumentNode)
    (c : ConcreteType) (number_options : NumberOptions)
    (hname : context.input_name node_id input_index = some name)
    (hdesc : context.input_description node_id input_index = some description)
    (hnet : context.nested_network = some network)
    (hnode : network.nodes node_id = some document_node)
    (halias : aliasHasWidget c.alias' = false)
    (hid : idInCatalog c.id = false) :
    property_from_type node_id input_index (.concrete c) number_options context
      = Except.ok (Except.error [widgetsIntoLayoutGroup
          (start_widgets document_node node_id input_index name description .general true ++
           [(Separator.new .unrelated).widget_holder,
            ((TextLabel.new "-").set_tooltip (unsupportedTypeTooltip c.name)).widget_holder])])
    ∧ containsStr (unsupportedTypeTooltip c.name) c.name
    ∧ dispatch_succeeds node_id input_index number_options context (.concrete c)
        = Except.ok false := by
  obtain ⟨cname, calias, cid⟩ := c
  simp only [aliasHasWidget] at halias
  simp only [idInCatalog] at hid
  have ha1 : ¬(calias = some "Percentage") := fun h => by
    rw [h] at halias; exact absurd halias (by decide)
  have ha2 : ¬(calias = some "SignedPercentage") := fun h => by
    rw [h] at halias; exact absurd halias (by decide)
  have ha3 : ¬(calias = some "Angle") := fun h => by
    rw [h] at halias; exact absurd halias (by decide)
  have ha4 : ¬(calias = some "PixelLength") := fun h => by
    rw [h] at halias; exact absurd halias (by decide)
  have ha5 : ¬(calias = some "Length") := fun h => by
    rw [h] at halias; exact absurd halias (by decide)
  have ha6 : ¬(calias = some "Fraction") := fun h => by
    rw [h] at halias; exact absurd halias (by decide)
  have ha7 : ¬(calias = some "IntegerCount") := fun h => by
    rw [h] at halias; exact absurd halias (by decide)
  have ha8 : ¬(calias = some "SeedValue") := fun h => by
    rw [h] at halias; exact absurd halias (by decide)
  have ha9 : ¬(calias = some "Resolution") := fun h => by
    rw [h] at halias; exact absurd halias (by decide)
  have hmain : property_from_type node_id input_index
      (.concrete ⟨cname, calias, cid⟩) number_options context
      = Except.ok (Except.error [widgetsIntoLayoutGroup
          (start_widgets document_node node_id input_index name description .general true ++
           [(Separator.new .unrelated).widget_holder,
            ((TextLabel.new "-").set_tooltip (unsupportedTypeTooltip cname)).widget_holder])]) := by
    rw [property_from_type, hname, hdesc, hnet]
    dsimp only
    rw [hnode]
    dsimp only
    rw [property_from_type_concrete]
    rw [if_neg ha1, if_neg ha2, if_neg ha3, if_neg ha4, if_neg ha5, if_neg ha6, if_neg ha7,
      if_neg ha8, if_neg ha9]
    cases cid with
    | none => rfl
    | some x =>
      cases x <;> first
        | rfl
        | exact absurd hid (by decide)
  refine ⟨hmain,
    ⟨"This data can only be supplied through the node graph because no widget " ++
      "exists for its type:\n", "", ?_⟩, ?_⟩
  · rw [String.append_empty]
    rfl
  · rw [dispatch_succeeds]
    rw [hmain]
    rfl

/-- C10 witness: a concrete type named `"A"` with an unknown identity token, dispatched in a
context whose lookups succeed. -/
theorem C10_unsupported_type_err_row_witness :
    property_from_type 7 1 (.concrete ⟨"A", Option.none, some (TypeId.other 0)⟩)
      (Option.none, Option.none, Option.none) ctxC1
      = Except.ok (Except.error [widgetsIntoLayoutGroup
          (start_widgets dnC1 7 1 "Value" "The input" .general true ++
           [(Separator.new .unrelated).widget_holder,
            ((TextLabel.new "-").set_tooltip (unsupportedTypeTooltip "A")).widget_holder])])
    ∧ containsStr (unsupportedTypeTooltip "A") "A"
    ∧ dispatch_succeeds 7 1 (Option.none, Option.none, Option.none) ctxC1
        (.concrete ⟨"A", Option.none, some (TypeId.other 0)⟩) = Except.ok false :=
  C10_unsupported_type_err_row ctxC1 7 1 "Value" "The input"
    ⟨fun n => if n = 7 then some dnC1 else Option.none⟩ dnC1
    ⟨"A", Option.none, some (TypeId.other 0)⟩ (Option.none, Option.none, Option.none)
    rfl rfl rfl rfl rfl rfl

-- C9 scenario: the registry offers only the non-renderable candidate A at slot 1.

def implsC9 : List NodeIOTypes := [⟨[tyC1A, tyC1A]⟩]

def ctxC9 : NodePropertiesContext :=
  { ctxC1 with node_registry := fun nm => if nm = "TestNode" then some implsC9 else Option.none }

/-- The shape of a dispatch result: `some (is_ok, row_count)`, or `none` on a panic. -/
def pft_shape (r : Panics (Except (List LayoutGroup) (List LayoutGroup))) :
    Option (Bool × ℕ) :=
  match r with
  | Except.ok (Except.ok rows) => some (true, rows.length)
  | Except.ok (Except.error rows) => some (false, rows.length)
  | Except.error _ => Option.none

/-- C9 counterexample: with the single candidate A non-renderable, the slot's row set is
empty (`Ok []`) — the resolution does NOT fall through to the catalog's fallback, although
that fallback (dispatching A directly) would render one labelled row. -/
theorem C9_no_renderable_fallback_counterexample :
    generate_node_properties_input_row ctxC9 7 1 = Except.ok []
    ∧ pft_shape (property_from_type 7 1 tyC1A (Option.none, Option.none, Option.none) ctxC9)
        = some (false, 1) :=
  ⟨rfl, by decide⟩

/-- C9 (amended): for a polymorphic slot where no candidate type is renderable, resolution
fails and the slot contributes an empty row set (no catalog fallback row is produced). -/
theorem C9_no_renderable_candidate_empty_row
    (context : NodePropertiesContext) (node_id : NodeId) (input_index : ℕ)
    (ident : String) (implementations : List NodeIOTypes)
    (number_options : NumberOptions)
    (hov : context.call_widget_override node_id input_index = Option.none)
    (himpl : context.implementation node_id = some (.protoNode ident))
    (hdef : ((context.node_metadata ident).bind
      (fun metadata => metadata.fields.get? input_index)).bind
        (fun field => field.default_type) = Option.none)
    (hno : number_options = (match (context.node_metadata ident).bind
      (fun metadata => metadata.fields.get? input_index) with
      | some field => (field.number_min, field.number_max, field.number_mode_range)
      | Option.none => (Option.none, Option.none, Option.none)))
    (hreg : context.node_registry ident = some implementations)
    (hfil : filterPanics (dispatch_succeeds node_id input_index number_options context)
      (candidate_input_types implementations input_index) = Except.ok []) :
    generate_node_properties_input_row context node_id input_index = Except.ok [] := by
  rw [generate_node_properties_input_row, hov, himpl]
  dsimp only
  rw [hdef]
  dsimp only
  rw [hreg]
  dsimp only
  rw [← hno]
  rw [hfil]
  rfl

/-- C9 witness for the amended statement: the concrete no-renderable-candidate scenario. -/
theorem C9_no_renderable_candidate_empty_row_witness :
    generate_node_properties_input_row ctxC9 7 1 = Except.ok [] :=
  C9_no_renderable_candidate_empty_row ctxC9 7 1 "TestNode" implsC9
    (Option.none, Option.none, Option.none) rfl rfl rfl rfl rfl (by decide)

/-- The number control of a single-row dispatch result (the last widget of the row). -/
def lastNumberInput (r : Panics (Except (List LayoutGroup) (List LayoutGroup))) :
    Option NumberInput :=
  match r with
  | Except.ok (Except.ok [LayoutGroup.row ws _]) =>
    match ws.getLast? with
    | some (WidgetHolder.numberInput n) => some n
    | _ => Option.none
  | _ => Option.none

/-- C6: for a slot whose type alias is `Percentage` holding an f64 value (with the context
lookups succeeding), the constructed number control has min/max `(0, 100)` when no explicit
min/max/range is supplied; explicit caller min/max, or an explicit range, override those
bounds while the alias's percent unit and range-mode behavior are kept. -/
theorem C6_percentage_bounds
    (context : NodePropertiesContext) (node_id : NodeId) (input_index : ℕ)
    (name description : String) (network : Network) (document_node : DocumentNode)
    (c : ConcreteType) (v : ℚ)
    (hname : context.input_name node_id input_index = some name)
    (hdesc : context.input_description node_id input_index = some description)
    (hnet : context.nested_network = some network)
    (hnode : network.nodes node_id = some document_node)
    (hinput : document_node.inputs.get? input_index
      = some (NodeInput.value (TaggedValue.f64 v) false))
    (halias : c.alias' = some "Percentage") :
    ((lastNumberInput (property_from_type node_id input_index (.concrete c)
        (Option.none, Option.none, Option.none) context)).map
      (fun n => (n.min, n.max, n.unit, n.is_range_mode, n.value))
      = some (some (.finite 0), some (.finite 100), "%", true, some v))
    ∧ (∀ m M : ℚ, (lastNumberInput (property_from_type node_id input_index (.concrete c)
        (some m, some M, Option.none) context)).map
      (fun n => (n.min, n.max, n.unit, n.is_range_mode, n.value))
      = some (some (.finite m), some (.finite M), "%", true, some v))
    ∧ (∀ a b : ℚ, (lastNumberInput (property_from_type node_id input_index (.concrete c)
        (Option.none, Option.none, some (a, b)) context)).map
      (fun n => (n.min, n.max, n.unit, n.is_range_mode, n.value))
      = some (some (.finite a), some (.finite b), "%", true, some v)) := by
  refine ⟨?_, fun m M => ?_, fun a b => ?_⟩ <;>
  · rw [property_from_type, hname, hdesc, hnet]
    dsimp only
    rw [hnode]
    dsimp only
    rw [property_from_type_concrete, if_pos halias]
    simp only [number_widget, start_widgets, hinput, NodeInput.as_non_exposed_value,
      NodeInput.is_exposed, if_neg Bool.false_ne_true, lastNumberInput, widgetsIntoLayoutGroup,
      LayoutGroup.mkRow, add_blank_assist, List.cons_append, List.nil_append, List.getLast?,
      NumberInput.default, NumberInput.percentage, NumberInput.set_min, NumberInput.set_max,
      NumberInput.set_value, NumberInput.on_update, NumberInput.on_commit, Option.map,
      Option.getD, pure, Except.pure, if_true, expose_widget,
      ParameterExposeButton.widget_holder, TextLabel.widget_holder, Separator.widget_holder,
      NumberInput.widget_holder, List.getLast]

def dnC6 : DocumentNode := dnC1

def cC6 : ConcreteType := ⟨"f64", some "Percentage", some TypeId.tF64⟩

/-- C6 witness: the Percentage-aliased slot of the concrete scenario node, with no explicit
bounds, with explicit min/max `(5, 7)`, and with an explicit range `(2, 3)`. -/
theorem C6_percentage_bounds_witness :
    ((lastNumberInput (property_from_type 7 1 (.concrete cC6)
        (Option.none, Option.none, Option.none) ctxC1)).map
      (fun n => (n.min, n.max, n.unit, n.is_range_mode, n.value))
      = some (some (.finite 0), some (.finite 100), "%", true, some (mkRat 3 1)))
    ∧ ((lastNumberInput (property_from_type 7 1 (.concrete cC6)
        (some 5, some 7, Option.none) ctxC1)).map
      (fun n => (n.min, n.max, n.unit, n.is_range_mode, n.value))
      = some (some (.finite 5), some (.finite 7), "%", true, some (mkRat 3 1)))
    ∧ ((lastNumberInput (property_from_type 7 1 (.concrete cC6)
        (Option.none, Option.none, some (2, 3)) ctxC1)).map
      (fun n => (n.min, n.max, n.unit, n.is_range_mode, n.value))
      = some (some (.finite 2), some (.finite 3), "%", true, some (mkRat 3 1))) := by
  obtain ⟨h1, h2, h3⟩ := C6_percentage_bounds ctxC1 7 1 "Value" "The input"
    ⟨fun n => if n = 7 then some dnC1 else Option.none⟩ dnC1 cC6 (mkRat 3 1)
    rfl rfl rfl rfl rfl rfl
  exact ⟨h1, h2 5 7, h3 2 3⟩

/-- Whether a message only ever writes tagged values of the given tag (non-writing messages
pass trivially). -/
def msgWritesTag (t : Tag) : Message → Prop
  | Message.nodeGraph (NodeGraphMessage.setInputValue _ _ v) => v.tag = t
  | _ => True

/-- Whether every live-update invocation of an interactive control only writes values of the
given tag (controls carrying no tagged-value payload pass trivially). -/
def widgetEmitsTag (t : Tag) (w : WidgetHolder) : Prop :=
  match w with
  | .numberInput n =>
    ∀ o : Option ℚ, (match n.update_callback with
      | some f => msgWritesTag t (f o)
      | Option.none => True)
  | .checkboxInput c =>
    ∀ b : Bool, (match c.update_callback with
      | some f => msgWritesTag t (f b)
      | Option.none => True)
  | .textInput ti =>
    ∀ s : String, (match ti.update_callback with
      | some f => msgWritesTag t (f s)
      | Option.none => True)
  | _ => True

/-- The live-update callback of a number control. -/
def widgetNumberUpdate (w : WidgetHolder) : Option (Option ℚ → Message) :=
  match w with
  | .numberInput n => n.update_callback
  | _ => Option.none

/-- The tag of the tagged value a message writes, if any. -/
def messageValueTag (m : Message) : Option Tag :=
  match m with
  | .nodeGraph (.setInputValue _ _ v) => some v.tag
  | _ => Option.none

/-- The widgets of a row. -/
def layoutRowWidgets : LayoutGroup → List WidgetHolder
  | .row ws _ => ws
  | .section _ _ _ _ _ _ => []

/-- A node whose slot 1 stores a DVec2 value. -/
def dnC2 : DocumentNode :=
  ⟨[NodeInput.value (TaggedValue.bool false) false,
    NodeInput.value (TaggedValue.dvec2 (1, 2)) false]⟩

/-- C2 counterexample: `number_widget` built over a slot storing a `DVec2` installs a
live-update callback that emits an `F64`-tagged value — the emitted tag differs from the
slot's stored tag, so widgets do not preserve the tag on every edit. -/
theorem C2_tag_preservation_counterexample :
    (((number_widget dnC2 3 1 "Spacing" "TODO" NumberInput.default true).getLast?.bind
        widgetNumberUpdate).map (fun f => messageValueTag (f (some 5)))
      = some (some Tag.f64))
    ∧ (((dnC2.inputs.get? 1).bind NodeInput.as_non_exposed_value).map TaggedValue.tag
        = some Tag.dvec2)
    ∧ Tag.f64 ≠ Tag.dvec2 :=
  ⟨rfl, by decide, by decide⟩

/-- C2 (amended): the live-update callbacks installed by `number_widget` and `vec2_widget`
write values of the slot's stored tag, except for the two deliberate shape conversions: a
`number_widget` over a stored `DVec2` emits `F64` (the Grid node's spacing transfer), and a
`vec2_widget` over a stored `F64` emits `DVec2`. -/
theorem C2_number_vec2_widget_tags
    (document_node : DocumentNode) (node_id : NodeId) (index : ℕ)
    (name description x y unit : String) (props : NumberInput) (blank_assist : Bool)
    (min : Option ℚ) :
    (∀ v : ℚ, document_node.inputs.get? index
        = some (NodeInput.value (TaggedValue.f64 v) false) →
      ∀ w ∈ number_widget document_node node_id index name description props blank_assist,
        widgetEmitsTag Tag.f64 w)
    ∧ (∀ n : ℕ, document_node.inputs.get? index
        = some (NodeInput.value (TaggedValue.u32 n) false) →
      ∀ w ∈ number_widget document_node node_id index name description props blank_assist,
        widgetEmitsTag Tag.u32 w)
    ∧ (∀ n : ℕ, document_node.inputs.get? index
        = some (NodeInput.value (TaggedValue.u64 n) false) →
      ∀ w ∈ number_widget document_node node_id index name description props blank_assist,
        widgetEmitsTag Tag.u64 w)
    ∧ (∀ o : Option ℚ, document_node.inputs.get? index
        = some (NodeInput.value (TaggedValue.optionalF64 o) false) →
      ∀ w ∈ number_widget document_node node_id index name description props blank_assist,
        widgetEmitsTag Tag.optionalF64 w)
    ∧ (∀ p : ℚ × ℚ, document_node.inputs.get? index
        = some (NodeInput.value (TaggedValue.dvec2 p) false) →
      ∀ w ∈ number_widget document_node node_id index name description props blank_assist,
        widgetEmitsTag Tag.f64 w)
    ∧ (∀ p : ℚ × ℚ, document_node.inputs.get? index
        = some (NodeInput.value (TaggedValue.dvec2 p) false) →
      ∀ w ∈ layoutRowWidgets (vec2_widget document_node node_id index name description x y
          unit min add_blank_assist),
        widgetEmitsTag Tag.dvec2 w)
    ∧ (∀ p : ℤ × ℤ, document_node.inputs.get? index
        = some (NodeInput.value (TaggedValue.ivec2 p) false) →
      ∀ w ∈ layoutRowWidgets (vec2_widget document_node node_id index name description x y
          unit min add_blank_assist),
        widgetEmitsTag Tag.ivec2 w)
    ∧ (∀ p : ℕ × ℕ, document_node.inputs.get? index
        = some (NodeInput.value (TaggedValue.uvec2 p) false) →
      ∀ w ∈ layoutRowWidgets (vec2_widget document_node node_id index name description x y
          unit min add_blank_assist),
        widgetEmitsTag Tag.uvec2 w)
    ∧ (∀ v : ℚ, document_node.inputs.get? index
        = some (NodeInput.value (TaggedValue.f64 v) false) →
      ∀ w ∈ layoutRowWidgets (vec2_widget document_node node_id index name description x y
          unit min add_blank_assist),
        widgetEmitsTag Tag.dvec2 w) := by
  refine ⟨?_, ?_, ?_, ?_, ?_, ?_, ?_, ?_, ?_⟩ <;> intro val hinput <;>
    first
    | (simp only [number_widget, start_widgets, hinput, NodeInput.as_non_exposed_value,
        NodeInput.is_exposed, if_neg Bool.false_ne_true, add_blank_assist, List.cons_append,
        List.nil_append]
       rcases blank_assist with _ | _ <;>
         simp [List.forall_mem_cons, widgetEmitsTag, msgWritesTag, expose_widget,
           ParameterExposeButton.widget_holder, TextLabel.widget_holder,
           Separator.widget_holder, NumberInput.widget_holder, CheckboxInput.widget_holder,
           CheckboxInput.new, CheckboxInput.on_update, CheckboxInput.on_commit,
           NumberInput.set_value, NumberInput.set_disabled, NumberInput.on_update,
           NumberInput.on_commit, update_value, optionally_update_value, TaggedValue.tag])
    | (simp only [vec2_widget, start_widgets, hinput, NodeInput.as_non_exposed_value,
        NodeInput.is_exposed, if_neg Bool.false_ne_true, add_blank_assist, List.cons_append,
        List.nil_append]
       simp [List.forall_mem_cons, widgetEmitsTag, msgWritesTag, expose_widget,
         ParameterExposeButton.widget_holder, TextLabel.widget_holder,
         Separator.widget_holder, NumberInput.widget_holder, layoutRowWidgets,
         LayoutGroup.mkRow, NumberInput.new, NumberInput.set_label, NumberInput.set_unit,
         NumberInput.set_min, NumberInput.set_max, NumberInput.int, NumberInput.on_update,
         NumberInput.on_commit, update_value, optionally_update_value, TaggedValue.tag])

/-- C2 witness for the amended statement: all controls of the `number_widget` built over
the DVec2-holding slot emit `F64`-tagged values, and all controls of the `vec2_widget`
built over an F64-holding slot emit `DVec2`-tagged values. -/
theorem C2_number_vec2_widget_tags_witness :
    (number_widget dnC2 3 1 "Spacing" "TODO" NumberInput.default true).Forall
      (widgetEmitsTag Tag.f64)
    ∧ (layoutRowWidgets (vec2_widget dnC1 3 1 "Spacing" "TODO" "W" "H" " px" (some 0)
        add_blank_assist)).Forall (widgetEmitsTag Tag.dvec2) := by
  constructor
  · exact List.forall_iff_forall_mem.mpr
      ((C2_number_vec2_widget_tags dnC2 3 1 "Spacing" "TODO" "W" "H" " px"
        NumberInput.default true (some 0)).2.2.2.2.1 (1, 2) rfl)
  · exact List.forall_iff_forall_mem.mpr
      ((C2_number_vec2_widget_tags dnC1 3 1 "Spacing" "TODO" "W" "H" " px"
        NumberInput.default true (some 0)).2.2.2.2.2.2.2.2 (mkRat 3 1) rfl)

/-- The message emitted by entry `i` of the radio control ending a row. -/
def rowRadioEntryMsg (l : LayoutGroup) (i : ℕ) : Option Message :=
  match l with
  | .row ws _ =>
    match ws.getLast? with
    | some (WidgetHolder.radioInput r) =>
      (r.entries.get? i).bind (fun e => e.update_callback.map (fun f => f ()))
    | _ => Option.none
  | _ => Option.none

/-- The live-update callback of the color control ending a row. -/
def rowColorUpdate (l : LayoutGroup) : Option (FillChoice → Message) :=
  match l with
  | .row ws _ =>
    match ws.getLast? with
    | some (WidgetHolder.colorInput c) => c.update_callback
    | _ => Option.none
  | _ => Option.none

/-- Whether a message is a batched bundle. -/
def isBatchedMsg : Message → Bool
  | Message.batched _ => true
  | _ => false

mutual

/-- Whether a message (or any member of a batch) writes to the given input index. -/
def messageWritesIndex (index : ℕ) : Message → Bool
  | Message.nodeGraph (NodeGraphMessage.setInputValue _ i _) => i == index
  | Message.batched ms => messagesWriteIndex index ms
  | _ => false

/-- Whether any message of a list writes to the given input index. -/
def messagesWriteIndex (index : ℕ) : List Message → Bool
  | [] => false
  | m :: ms => messageWritesIndex index m || messagesWriteIndex index ms

end

/-- A gradient used by the fill-panel scenario. -/
def gC3 : Gradient :=
  { stops := [(0, 1), (1, 2)], gradient_type := .linear, start := (0, 0), end' := (1, 0) }

/-- A fill node holding a gradient fill, a solid backup color `5`, and a backup gradient. -/
def dnC3 : DocumentNode :=
  ⟨[NodeInput.value (TaggedValue.bool false) false,
    NodeInput.value (TaggedValue.fill (Fill.gradient gC3)) false,
    NodeInput.value (TaggedValue.optionalColor (some 5)) false,
    NodeInput.value (TaggedValue.gradient gC3) false]⟩

def ctxC3 : NodePropertiesContext :=
  { ctxC1 with nested_network := some ⟨fun n => if n = 9 then some dnC3 else Option.none⟩ }

/-- C3 counterexample: toggling the fill panel's mode switch from gradient to solid emits a
single non-batched `SetInputValue` that writes only the active fill slot (index 1); it does
not record the departed gradient under its backup slot (index 3), so the mode switch is not
the atomic two-slot write the claim describes. -/
theorem C3_fill_mode_switch_counterexample :
    ((fill_properties 9 ctxC3).map
        (fun rows => (rows.get? 1).bind (fun row => rowRadioEntryMsg row 0))
      = Except.ok (some (Message.nodeGraph
          (NodeGraphMessage.setInputValue 9 1 (TaggedValue.fill (Fill.solid 5))))))
    ∧ ((fill_properties 9 ctxC3).map
        (fun rows => (rows.get? 1).bind (fun row => (rowRadioEntryMsg row 0).map
          (fun m => (isBatchedMsg m, messageWritesIndex 3 m, messageWritesIndex 2 m))))
      = Except.ok (some (false, false, false))) :=
  ⟨rfl, by decide⟩

/-- C3 (amended): the fill panel's solid/gradient mode switch emits a single `SetInputValue`
writing the stored backup of the representation being entered into the active fill slot —
not a batched two-slot write; the batched atomic write of the departed representation's
backup together with the active fill belongs to the color swatch's live-update callback. -/
theorem C3_fill_mode_switch_single_write
    (context : NodePropertiesContext) (node_id : NodeId)
    (network : Network) (document_node : DocumentNode)
    (fill : Fill) (backup_color : Option Color) (backup_gradient : Gradient)
    (e1 e2 e3 : Bool)
    (hnet : context.nested_network = some network)
    (hnode : network.nodes node_id = some document_node)
    (hin1 : document_node.inputs.get? 1
      = some (NodeInput.value (TaggedValue.fill fill) e1))
    (hin2 : document_node.inputs.get? 2
      = some (NodeInput.value (TaggedValue.optionalColor backup_color) e2))
    (hin3 : document_node.inputs.get? 3
      = some (NodeInput.value (TaggedValue.gradient backup_gradient) e3)) :
    ((fill_properties node_id context).map
        (fun rows => (rows.get? 1).bind (fun row => rowRadioEntryMsg row 0))
      = Except.ok (some (Message.nodeGraph (NodeGraphMessage.setInputValue node_id 1
          (TaggedValue.fill (fillOfOptionalColor backup_color))))))
    ∧ ((fill_properties node_id context).map
        (fun rows => (rows.get? 1).bind (fun row => rowRadioEntryMsg row 1))
      = Except.ok (some (Message.nodeGraph (NodeGraphMessage.setInputValue node_id 1
          (TaggedValue.fill (fillOfGradient backup_gradient))))))
    ∧ (∀ choice : FillChoice, (fill_properties node_id context).map
        (fun rows => (rows.get? 0).bind (fun row => (rowColorUpdate row).map
          (fun f => f choice)))
      = Except.ok (some (Message.batched
          [(match fill with
            | Fill.none => Message.nodeGraph (NodeGraphMessage.setInputValue node_id 2
                (TaggedValue.optionalColor Option.none))
            | Fill.solid color => Message.nodeGraph (NodeGraphMessage.setInputValue node_id 2
                (TaggedValue.optionalColor (some color)))
            | Fill.gradient gradient => Message.nodeGraph (NodeGraphMessage.setInputValue
                node_id 3 (TaggedValue.gradient gradient))),
           Message.nodeGraph (NodeGraphMessage.setInputValue node_id 1
             (TaggedValue.fill (choice.to_fill fill.as_gradient)))]))) := by
  have hdoc : get_document_node node_id context = Except.ok document_node := by
    rw [get_document_node, hnet]
    dsimp only
    rw [hnode]
  have hg1 : document_node.inputs[1]?
      = some (NodeInput.value (TaggedValue.fill fill) e1) := by
    rw [← List.get?_eq_getElem?]; exact hin1
  refine ⟨?_, ?_, fun choice => ?_⟩ <;>
  rcases fill with _ | color | gradient <;>
  · rw [fill_properties, hdoc]
    dsimp only
    simp only [indexPanic, hin1, hin2, hin3, Bind.bind, Except.bind, pure, Except.pure,
      NodeInput.as_value]
    simp [rowRadioEntryMsg, rowColorUpdate, List.getLast?, List.getLast, start_widgets, hg1,
      NodeInput.is_exposed, add_blank_assist, widgetsIntoLayoutGroup, LayoutGroup.mkRow,
      expose_widget, ParameterExposeButton.widget_holder, TextLabel.widget_holder,
      Separator.widget_holder, ColorInput.widget_holder, RadioInput.widget_holder,
      IconButton.widget_holder, ColorInput.set_value, ColorInput.on_update,
      ColorInput.on_commit, RadioInput.new, RadioInput.set_selected_index,
      RadioEntryData.new, RadioEntryData.set_label, RadioEntryData.on_update,
      RadioEntryData.on_commit, IconButton.new, IconButton.set_tooltip, IconButton.on_update,
      update_value, optionally_update_value, Except.map, Fill.as_gradient]

/-- C3 witness for the amended statement: the concrete gradient-filled node — the solid
switch restores the backup color as a single write, the gradient switch restores the backup
gradient, and the swatch's callback batches the departed-gradient backup write with the
active-fill write. -/
theorem C3_fill_mode_switch_single_write_witness :
    ((fill_properties 9 ctxC3).map
        (fun rows => (rows.get? 1).bind (fun row => rowRadioEntryMsg row 0))
      = Except.ok (some (Message.nodeGraph (NodeGraphMessage.setInputValue 9 1
          (TaggedValue.fill (fillOfOptionalColor (some 5)))))))
    ∧ ((fill_properties 9 ctxC3).map
        (fun rows => (rows.get? 1).bind (fun row => rowRadioEntryMsg row 1))
      = Except.ok (some (Message.nodeGraph (NodeGraphMessage.setInputValue 9 1
          (TaggedValue.fill (fillOfGradient gC3))))))
    ∧ ((fill_properties 9 ctxC3).map
        (fun rows => (rows.get? 0).bind (fun row => (rowColorUpdate row).map
          (fun f => f (FillChoice.solid 7))))
      = Except.ok (some (Message.batched
          [Message.nodeGraph (NodeGraphMessage.setInputValue 9 3 (TaggedValue.gradient gC3)),
           Message.nodeGraph (NodeGraphMessage.setInputValue 9 1
             (TaggedValue.fill (Fill.solid 7)))]))) := by
  obtain ⟨h1, h2, h3⟩ := C3_fill_mode_switch_single_write ctxC3 9
    ⟨fun n => if n = 9 then some dnC3 else Option.none⟩ dnC3
    (Fill.gradient gC3) (some 5) gC3 false false false rfl rfl rfl rfl rfl
  exact ⟨h1, h2, h3 (FillChoice.solid 7)⟩

/-- A rectangle node currently in uniform corner-radius mode storing `5`. -/
def dnC4u : DocumentNode :=
  ⟨[NodeInput.value (TaggedValue.bool false) false,
    NodeInput.value (TaggedValue.f64 (mkRat 10 1)) false,
    NodeInput.value (TaggedValue.f64 (mkRat 20 1)) false,
    NodeInput.value (TaggedValue.bool false) false,
    NodeInput.value (TaggedValue.f64 (mkRat 5 1)) false,
    NodeInput.value (TaggedValue.bool true) false]⟩

/-- A rectangle node currently in individual corner-radius mode storing `[1, 2, 3, 4]`. -/
def dnC4i : DocumentNode :=
  ⟨[NodeInput.value (TaggedValue.bool false) false,
    NodeInput.value (TaggedValue.f64 (mkRat 10 1)) false,
    NodeInput.value (TaggedValue.f64 (mkRat 20 1)) false,
    NodeInput.value (TaggedValue.bool true) false,
    NodeInput.value (TaggedValue.f64Array4 (mkRat 1 1, mkRat 2 1, mkRat 3 1, mkRat 4 1)) false,
    NodeInput.value (TaggedValue.bool true) false]⟩

def ctxC4u : NodePropertiesContext :=
  { ctxC1 with nested_network := some ⟨fun n => if n = 11 then some dnC4u else Option.none⟩ }

def ctxC4i : NodePropertiesContext :=
  { ctxC1 with nested_network := some ⟨fun n => if n = 12 then some dnC4i else Option.none⟩ }

/-- C4: the rectangle corner-radius mode switch is a single batched update in each direction.
With a uniform value `v` stored, the Individual entry emits one batched message setting the
mode flag (slot 3) to `true` and the radius slot (slot 4) to the broadcast `(v, v, v, v)`;
with individual values `q` stored, the Uniform entry emits one batched message setting the
flag to `false` and the radius to the first component `q.1`. -/
theorem C4_corner_radius_mode_switch
    (context : NodePropertiesContext) (node_id : NodeId)
    (network : Network) (document_node : DocumentNode)
    (is_individual : Bool) (radius_tv : TaggedValue)
    (hnet : context.nested_network = some network)
    (hnode : network.nodes node_id = some document_node)
    (hin3 : document_node.inputs.get? 3
      = some (NodeInput.value (TaggedValue.bool is_individual) false))
    (hin4 : document_node.inputs.get? 4 = some (NodeInput.value radius_tv false)) :
    (∀ v : ℚ, radius_tv = TaggedValue.f64 v →
      ((rectangle_properties node_id context).get? 2).bind (fun row => rowRadioEntryMsg row 1)
        = some (Message.batched
            [Message.nodeGraph (NodeGraphMessage.setInputValue node_id 3
              (TaggedValue.bool true)),
             Message.nodeGraph (NodeGraphMessage.setInputValue node_id 4
              (TaggedValue.f64Array4 (v, v, v, v)))])
      ∧ ((rectangle_properties node_id context).get? 2).bind (fun row => rowRadioEntryMsg row 0)
        = some (Message.batched
            [Message.nodeGraph (NodeGraphMessage.setInputValue node_id 3
              (TaggedValue.bool false)),
             Message.nodeGraph (NodeGraphMessage.setInputValue node_id 4
              (TaggedValue.f64 v))]))
    ∧ (∀ q : ℚ × ℚ × ℚ × ℚ, radius_tv = TaggedValue.f64Array4 q →
      ((rectangle_properties node_id context).get? 2).bind (fun row => rowRadioEntryMsg row 0)
        = some (Message.batched
            [Message.nodeGraph (NodeGraphMessage.setInputValue node_id 3
              (TaggedValue.bool false)),
             Message.nodeGraph (NodeGraphMessage.setInputValue node_id 4
              (TaggedValue.f64 q.1))])
      ∧ ((rectangle_properties node_id context).get? 2).bind (fun row => rowRadioEntryMsg row 1)
        = some (Message.batched
            [Message.nodeGraph (NodeGraphMessage.setInputValue node_id 3
              (TaggedValue.bool true)),
             Message.nodeGraph (NodeGraphMessage.setInputValue node_id 4
              (TaggedValue.f64Array4 q))])) := by
  have hdoc : get_document_node node_id context = Except.ok document_node := by
    rw [get_document_node, hnet]
    dsimp only
    rw [hnode]
  have hg4 : document_node.inputs[4]? = some (NodeInput.value radius_tv false) := by
    rw [← List.get?_eq_getElem?]; exact hin4
  refine ⟨fun v hv => ?_, fun q hq => ?_⟩ <;>
  · first
      | subst hv
      | subst hq
    rw [rectangle_properties, hdoc]
    dsimp only
    rw [hin3]
    dsimp only [NodeInput.as_non_exposed_value, if_false]
    rw [hin4]
    dsimp only [NodeInput.as_non_exposed_value, if_false]
    constructor <;>
    simp [rowRadioEntryMsg, List.getLast?, List.getLast, start_widgets, hg4,
      NodeInput.is_exposed, add_blank_assist, widgetsIntoLayoutGroup, LayoutGroup.mkRow,
      expose_widget, ParameterExposeButton.widget_holder, TextLabel.widget_holder,
      Separator.widget_holder, RadioInput.widget_holder, TextInput.widget_holder,
      NumberInput.widget_holder, CheckboxInput.widget_holder, RadioInput.new,
      RadioInput.set_selected_index, RadioEntryData.new, RadioEntryData.set_label,
      RadioEntryData.on_update, RadioEntryData.on_commit, number_widget, bool_widget]

/-- C4 witness: at the uniform node storing `5`, the Individual entry batches the flag write
with `[5, 5, 5, 5]`; at the individual node storing `[1, 2, 3, 4]`, the Uniform entry
batches the flag write with the first element `1`. -/
theorem C4_corner_radius_mode_switch_witness :
    (((rectangle_properties 11 ctxC4u).get? 2).bind (fun row => rowRadioEntryMsg row 1)
      = some (Message.batched
          [Message.nodeGraph (NodeGraphMessage.setInputValue 11 3 (TaggedValue.bool true)),
           Message.nodeGraph (NodeGraphMessage.setInputValue 11 4
            (TaggedValue.f64Array4 (mkRat 5 1, mkRat 5 1, mkRat 5 1, mkRat 5 1)))]))
    ∧ (((rectangle_properties 12 ctxC4i).get? 2).bind (fun row => rowRadioEntryMsg row 0)
      = some (Message.batched
          [Message.nodeGraph (NodeGraphMessage.setInputValue 12 3 (TaggedValue.bool false)),
           Message.nodeGraph (NodeGraphMessage.setInputValue 12 4
            (TaggedValue.f64 (mkRat 1 1)))])) :=
  ⟨((C4_corner_radius_mode_switch ctxC4u 11
      ⟨fun n => if n = 11 then some dnC4u else Option.none⟩ dnC4u false
      (TaggedValue.f64 (mkRat 5 1)) rfl rfl rfl rfl).1 (mkRat 5 1) rfl).1,
   ((C4_corner_radius_mode_switch ctxC4i 12
      ⟨fun n => if n = 12 then some dnC4i else Option.none⟩ dnC4i true
      (TaggedValue.f64Array4 (mkRat 1 1, mkRat 2 1, mkRat 3 1, mkRat 4 1))
      rfl rfl rfl rfl).2 (mkRat 1 1, mkRat 2 1, mkRat 3 1, mkRat 4 1) rfl).1⟩

/-- A well-typed stroke node missing its trailing slots: only color and weight are present. -/
def dnC5 : DocumentNode :=
  ⟨[NodeInput.value (TaggedValue.bool false) false,
    NodeInput.value (TaggedValue.color 3) false,
    NodeInput.value (TaggedValue.f64 (mkRat 2 1)) false]⟩

def ctxC5 : NodePropertiesContext :=
  { ctxC1 with nested_network := some ⟨fun n => if n = 13 then some dnC5 else Option.none⟩ }

/-- C5 counterexample: the stroke panel indexes `inputs[3]` (the dash-lengths slot) without
a bounds check, so building it for a node with only three inputs aborts with an
index-out-of-bounds panic rather than producing a displayable result — panel construction
is not total over malformed nodes. -/
theorem C5_stroke_panics_counterexample :
    stroke_properties 13 ctxC5 = Except.error "index out of bounds" := rfl

/-- The live-update callback of the text control ending a widget list. -/
def lastTextUpdate (ws : List WidgetHolder) : Option (String → Message) :=
  match ws.getLast? with
  | some (WidgetHolder.textInput t) => t.update_callback
  | _ => Option.none

/-- If any element of a list fails to parse, the parsing loop fails for any accumulator. -/
theorem mapM_loop_parseF64_none (l : List String) (acc : List ℚ) {t : String} (ht : t ∈ l)
    (hf : parseF64 t = Option.none) : List.mapM.loop parseF64 l acc = Option.none := by
  induction l generalizing acc with
  | nil => cases ht
  | cons a as ih =>
    rcases List.mem_cons.mp ht with h | h
    · rw [h] at hf
      simp [List.mapM.loop, hf]
    · cases hpa : parseF64 a <;> simp [List.mapM.loop, hpa]
      exact ih _ h

/-- If any element of a list fails to parse, parsing the whole list fails. -/
theorem mapM_parseF64_none {l : List String} {t : String} (ht : t ∈ l)
    (hf : parseF64 t = Option.none) : l.mapM parseF64 = Option.none :=
  mapM_loop_parseF64_none l [] ht hf

/-- C7: for the float-list and point-list free-text controls, entering text containing any
token (after splitting and dropping empty tokens) that fails to parse as a number makes the
live-update callback emit `NoOp` — no update message is produced and the stored value is
left untouched. -/
theorem C7_malformed_list_text_noop
    (document_node : DocumentNode) (node_id : NodeId) (index index2 : ℕ)
    (name description : String) (ti : TextInput) (blank_assist : Bool)
    (x : List ℚ) (y : List (ℚ × ℚ)) (s s2 t1 t2 : String)
    (hin : document_node.inputs.get? index
      = some (NodeInput.value (TaggedValue.vecF64 x) false))
    (hin2 : document_node.inputs.get? index2
      = some (NodeInput.value (TaggedValue.vecDVec2 y) false))
    (ht1 : t1 ∈ (stringSplit s (fun c => c == ',' || c == ' ')).filter
      (fun tok => !tok.isEmpty))
    (hf1 : parseF64 t1 = Option.none)
    (ht2 : t2 ∈ (stringSplit s2
      (fun c => !(c.isAlphanum || c == '.' || c == '+' || c == '-'))).filter
      (fun tok => !tok.isEmpty))
    (hf2 : parseF64 t2 = Option.none) :
    ((lastTextUpdate (vec_f64_input document_node node_id index name description ti
        blank_assist)).map (fun f => f s) = some Message.noOp)
    ∧ ((lastTextUpdate (vec_dvec2_input document_node node_id index2 name description ti
        blank_assist)).map (fun f => f s2) = some Message.noOp) := by
  have hv1 : vec_f64_from_string s = Option.none := by
    rw [vec_f64_from_string, mapM_parseF64_none ht1 hf1]
    rfl
  have hv2 : vec_dvec2_from_string s2 = Option.none := by
    rw [vec_dvec2_from_string, mapM_parseF64_none ht2 hf2]
    rfl
  constructor
  · rw [vec_f64_input, hin]
    dsimp only [NodeInput.as_non_exposed_value, if_false]
    simp [lastTextUpdate, List.getLast?_append, TextInput.set_value, TextInput.on_update,
      TextInput.widget_holder, Separator.widget_holder, optionally_update_value, hv1]
  · rw [vec_dvec2_input, hin2]
    dsimp only [NodeInput.as_non_exposed_value, if_false]
    simp [lastTextUpdate, List.getLast?_append, TextInput.set_value, TextInput.on_update,
      TextInput.widget_holder, Separator.widget_holder, optionally_update_value, hv2]

/-- C7 witness: the text `1,,abc` in either list control yields `NoOp` — the token `abc`
survives filtering and fails to parse. -/
theorem C7_malformed_list_text_noop_witness :
    ("abc" ∈ (stringSplit "1,,abc" (fun c => c == ',' || c == ' ')).filter
      (fun tok => !tok.isEmpty))
    ∧ (parseF64 "abc" = Option.none)
    ∧ ((lastTextUpdate (vec_f64_input
        ⟨[NodeInput.value (TaggedValue.vecF64 []) false,
          NodeInput.value (TaggedValue.vecDVec2 []) false]⟩ 14 0
        "Dash Lengths" "TODO" TextInput.default true)).map (fun f => f "1,,abc")
      = some Message.noOp)
    ∧ ((lastTextUpdate (vec_dvec2_input
        ⟨[NodeInput.value (TaggedValue.vecF64 []) false,
          NodeInput.value (TaggedValue.vecDVec2 []) false]⟩ 14 1
        "Dash Lengths" "TODO" TextInput.default true)).map (fun f => f "1,,abc")
      = some Message.noOp) := by
  have h := C7_malformed_list_text_noop
    ⟨[NodeInput.value (TaggedValue.vecF64 []) false,
      NodeInput.value (TaggedValue.vecDVec2 []) false]⟩ 14 0 1
    "Dash Lengths" "TODO" TextInput.default true [] [] "1,,abc" "1,,abc" "abc" "abc"
    rfl rfl (by decide) (by decide) (by decide) (by decide)
  exact ⟨by decide, by decide, h.1, h.2⟩

/-- C8: round-trip for the float-list control — serializing the list `[1, 2, 3.5]` to its
comma-separated text form and re-parsing it with the widget's parser yields the original
list. -/
theorem C8_float_list_round_trip :
    vec_f64_from_string (serializeVecF64 [mkRat 1 1, mkRat 2 1, mkRat 7 2])
      = some (TaggedValue.vecF64 [mkRat 1 1, mkRat 2 1, mkRat 7 2]) := by
  decide
